import Mathlib

/-!
# BMP over UART

A shallow embedding of `bmp.c` / `bmp.h`: the header builder `send_bmp_handle`
and the row encoder `send_bmp_data`, together with the properties of the byte
stream they put on the wire.

Conventions of the embedding

* `uint8_t`, `uint16_t`, `uint32_t` values are natural numbers; every place
  where the C code truncates is an explicit `u8`, `u16` or `u32`.
* `int32_t bytes_per_row` is an integer obtained by `to_int32` (wrapping
  modulo 2^32); it re-enters unsigned arithmetic through `to_uint32`.
* Objects are laid out as on the target (little-endian Cortex-M) under
  `#pragma pack(push, 2)`; a struct is transmitted as its object bytes.
* Every call of `HAL_UART_Transmit` contributes one block to the trace `tx`
  of a `Result`; the byte stream is the concatenation of the blocks.
* `assert` aborts unless the unit is compiled with `NDEBUG`; the flag is the
  first argument `ndebug` of both functions.
-/

namespace BMP

/-! ## Machine integers -/

/-- Truncation to `uint8_t`. -/
def u8 (n : Nat) : Nat := n % 2 ^ 8

/-- Truncation to `uint16_t`. -/
def u16 (n : Nat) : Nat := n % 2 ^ 16

/-- Truncation to `uint32_t`. -/
def u32 (n : Nat) : Nat := n % 2 ^ 32

/-- Conversion of an unsigned 32-bit value to `int32_t` (wrapping modulo 2^32). -/
def to_int32 (n : Nat) : Int :=
  if u32 n < 2 ^ 31 then (u32 n : Int) else (u32 n : Int) - 2 ^ 32

/-- Conversion of an `int32_t` to `uint32_t`, as done by the usual arithmetic
conversions when it meets a `uint32_t` operand. -/
def to_uint32 (i : Int) : Nat := (i % 2 ^ 32).toNat

/-- The constant `~0x0003`: the `int` value -4, which becomes `0xFFFFFFFC`
next to a `uint32_t` operand. -/
def not_0x0003 : Nat := 0xFFFFFFFC

/-! ## `bmp.h` -/

/-- The constant `BMPFILETYPE`. -/
def BMPFILETYPE : Nat := 0x4D42

/-- The struct `BMPFileHeader`. -/
structure BMPFileHeader where
  bfType : Nat
  bfSize : Nat
  bfReserved1 : Nat
  bfReserved2 : Nat
  bfOffBits : Nat
deriving DecidableEq

/-- The struct `BMPInfoHeader`. -/
structure BMPInfoHeader where
  biSize : Nat
  biWidth : Nat
  biHeight : Nat
  biPlanes : Nat
  biBitCount : Nat
  biCompression : Nat
  biSizeImage : Nat
  biXPelsPerMeter : Nat
  biYPelsPerMeter : Nat
  biClrUsed : Nat
  biClrImportant : Nat
deriving DecidableEq

/-- The struct `BMPMask`. -/
structure BMPMask where
  r_mask : Nat
  g_mask : Nat
  b_mask : Nat
  a_mask : Nat
deriving DecidableEq

/-- The struct `BMP_Header`. -/
structure BMP_Header where
  fileheader : BMPFileHeader
  infoheader : BMPInfoHeader
deriving DecidableEq

/-- Object bytes of a `uint16_t` (little-endian). -/
def le16 (n : Nat) : List Nat := [n % 256, n / 256 % 256]

/-- Object bytes of a `uint32_t` (little-endian). -/
def le32 (n : Nat) : List Nat :=
  [n % 256, n / 256 % 256, n / 65536 % 256, n / 16777216 % 256]

/-- Object bytes of a `BMPFileHeader` under `pack(2)`: the `uint32_t` fields
sit at offsets 2 and 10, so there is no padding. -/
def BMPFileHeader.bytes (h : BMPFileHeader) : List Nat :=
  le16 h.bfType ++ le32 h.bfSize ++ le16 h.bfReserved1 ++ le16 h.bfReserved2
    ++ le32 h.bfOffBits

/-- Object bytes of a `BMPInfoHeader`. -/
def BMPInfoHeader.bytes (h : BMPInfoHeader) : List Nat :=
  le32 h.biSize ++ le32 h.biWidth ++ le32 h.biHeight ++ le16 h.biPlanes
    ++ le16 h.biBitCount ++ le32 h.biCompression ++ le32 h.biSizeImage
    ++ le32 h.biXPelsPerMeter ++ le32 h.biYPelsPerMeter ++ le32 h.biClrUsed
    ++ le32 h.biClrImportant

/-- Object bytes of a `BMPMask`. -/
def BMPMask.bytes (m : BMPMask) : List Nat :=
  le32 m.r_mask ++ le32 m.g_mask ++ le32 m.b_mask ++ le32 m.a_mask

/-- Object bytes of a `BMP_Header`. -/
def BMP_Header.bytes (h : BMP_Header) : List Nat :=
  h.fileheader.bytes ++ h.infoheader.bytes

/-- The value of `sizeof(BMPInfoHeader)`. -/
def sizeof_BMPInfoHeader : Nat := 40

/-- The value of `sizeof(BMPMask)`. -/
def sizeof_BMPMask : Nat := 16

/-- The value of `sizeof(BMP_Header)`. -/
def sizeof_BMP_Header : Nat := 54

/-! ## The transport and the outcome of a call -/

/-- Modelled from the spec: the type `UART_HandleTypeDef` is declared in the
HAL headers, which are not part of the sources. The spec treats it as the
transport handle owned by the caller; only the identity of the peripheral is
kept. -/
structure UART_HandleTypeDef where
  Instance : Nat
deriving DecidableEq

/-- Modelled from the spec: `HAL_UART_Transmit` is declared in `usart.h`,
which is not part of the sources. The spec describes the transport as one
blocking capability `write(bytes)` that delivers the bytes reliably; the call
puts the first `Size` bytes found at `pData` on the wire as one block. -/
def HAL_UART_Transmit (_huart : UART_HandleTypeDef) (pData : List Nat)
    (Size : Nat) : List Nat :=
  pData.take Size

/-- How a call ended. -/
inductive Status where
  | returned
  | assert_failed
  | out_of_bounds
deriving DecidableEq

/-- Outcome of a call: the blocks transmitted, in order, and how it ended. -/
structure Result where
  tx : List (List Nat)
  status : Status
deriving DecidableEq

/-- The byte stream put on the wire by a call. -/
def Result.stream (r : Result) : List Nat := r.tx.flatten

/-- The check `assert`: with `NDEBUG` it expands to nothing, otherwise the
program continues only if the condition holds. -/
def c_assert (ndebug cond : Bool) : Bool := ndebug || cond

/-! ## `send_bmp_handle` -/

/-- The expression `(k * (width + 1)) & ~0x0003` in `uint32_t` arithmetic. -/
def stride_expr (k width : Nat) : Nat :=
  u32 (k * u32 (width + 1)) &&& not_0x0003

/-- The first `switch` of `send_bmp_handle`: the value stored in
`int32_t bytes_per_row`, or `none` when the `default` branch returns. -/
def bytes_per_row (width bpp : Nat) : Option Int :=
  if bpp = 24 then some (to_int32 (stride_expr 3 width))
  else if bpp = 16 ∨ bpp = 15 then some (to_int32 (stride_expr 2 width))
  else none

/-- The initialiser of `BMP_Header fh`. The product `bytes_per_row * height`
is taken in `uint32_t`, and every field store truncates to the field type. -/
def init_header (width height : Nat) (bytes_per_row : Int) : BMP_Header :=
  { fileheader :=
      { bfType := u16 BMPFILETYPE
        bfSize := u32 (sizeof_BMP_Header + u32 (to_uint32 bytes_per_row * height))
        bfReserved1 := 0
        bfReserved2 := 0
        bfOffBits := u32 sizeof_BMP_Header }
    infoheader :=
      { biSize := u32 sizeof_BMPInfoHeader
        biWidth := u32 width
        biHeight := u32 height
        biPlanes := 1
        biBitCount := 24
        biCompression := 0
        biSizeImage := u32 (to_uint32 bytes_per_row * height)
        biXPelsPerMeter := 0
        biYPelsPerMeter := 0
        biClrUsed := 0
        biClrImportant := 0 } }

/-- The second `switch` of `send_bmp_handle`. -/
def adjust_header (bpp : Nat) (fh : BMP_Header) : BMP_Header :=
  if bpp = 16 then
    { fileheader :=
        { fh.fileheader with
          bfSize := u32 (fh.fileheader.bfSize + sizeof_BMPMask)
          bfOffBits := u32 (fh.fileheader.bfOffBits + sizeof_BMPMask) }
      infoheader :=
        { fh.infoheader with
          biBitCount := 16
          biCompression := 3
          biSize := u32 (fh.infoheader.biSize + sizeof_BMPMask) } }
  else if bpp = 15 then
    { fh with infoheader := { fh.infoheader with biBitCount := 16 } }
  else fh

/-- The local `struct BMPMask mask`. -/
def mask : BMPMask := { r_mask := 0xF800, g_mask := 0x07E0, b_mask := 0x001F, a_mask := 0x0000 }

/-- The function `send_bmp_handle`. The handle is passed on to
`HAL_UART_Transmit` without a check, so it is a valid handle here. -/
def send_bmp_handle (ndebug : Bool) (huart : UART_HandleTypeDef)
    (width height bpp : Nat) : Result :=
  if c_assert ndebug (bpp == 24 || bpp == 16 || bpp == 15) = false then
    ⟨[], Status.assert_failed⟩
  else
    match bytes_per_row width bpp with
    | none => ⟨[], Status.returned⟩
    | some bpr =>
      let fh := adjust_header bpp (init_header width height bpr)
      let head := HAL_UART_Transmit huart fh.bytes sizeof_BMP_Header
      if bpp = 16 then
        ⟨[head, HAL_UART_Transmit huart mask.bytes sizeof_BMPMask], Status.returned⟩
      else
        ⟨[head], Status.returned⟩

/-! ## `send_bmp_data` -/

/-- The union `pix_data`: four bytes of storage (three for `brg`, two for
`rgb555`, rounded up to the alignment of `uint16_t`). -/
structure PixData where
  b0 : Nat
  b1 : Nat
  b2 : Nat
  b3 : Nat
deriving DecidableEq

/-- Object bytes of the union. -/
def PixData.bytes (d : PixData) : List Nat := [d.b0, d.b1, d.b2, d.b3]

/-- The pointer `p_tx_data`: it points either into the pixel source or into
`pix_data`, `off` elements of `uint16_t` past the start. -/
structure TxPtr where
  in_src : Bool
  off : Nat
deriving DecidableEq

/-- The bytes `HAL_UART_Transmit` finds at `p_tx_data`; `none` when fewer
than `n` bytes of the object are left. -/
def read_tx (src : List Nat) (pix : PixData) (p : TxPtr) (n : Nat) :
    Option (List Nat) :=
  let mem := if p.in_src then ((src.drop p.off).map le16).flatten
             else pix.bytes.drop (2 * p.off)
  if n ≤ mem.length then some (mem.take n) else none

/-- The `switch` inside the loop: the new `p_data` and `pix_data`, or `none`
when `*p_data` reads past the end of the source. -/
def convert_pixel (src : List Nat) (bpp p_data : Nat) (pix : PixData) :
    Option (Nat × PixData) :=
  if bpp = 24 then
    match src[p_data]? with
    | none => none
    | some p =>
      some (p_data + 1,
        { pix with
          b0 := u8 ((p &&& 0x001F) <<< 3)
          b1 := u8 ((p &&& 0x07E0) >>> 3)
          b2 := u8 ((p &&& 0xF800) >>> 8) })
  else if bpp = 15 then
    match src[p_data]? with
    | none => none
    | some p =>
      let rgb555 := u16 ((p &&& 0x001F) ||| ((p >>> 1) &&& 0x7FE0))
      some (p_data + 1, { pix with b0 := rgb555 % 256, b1 := rgb555 / 256 % 256 })
  else some (p_data, pix)

/-- The loop `while (width--)` of `send_bmp_data`. -/
def row_loop (huart : UART_HandleTypeDef) (src : List Nat)
    (bpp bytes_per_pixel : Nat) : Nat → Nat → TxPtr → PixData → Result
  | 0, _, _, _ => ⟨[], Status.returned⟩
  | width + 1, p_data, p_tx_data, pix_data =>
    match convert_pixel src bpp p_data pix_data with
    | none => ⟨[], Status.out_of_bounds⟩
    | some (p_data1, pix_data1) =>
      match read_tx src pix_data1 p_tx_data bytes_per_pixel with
      | none => ⟨[], Status.out_of_bounds⟩
      | some found =>
        let block := HAL_UART_Transmit huart found bytes_per_pixel
        let p_tx_data1 : TxPtr :=
          if bpp = 16 then { p_tx_data with off := p_tx_data.off + 1 } else p_tx_data
        let r := row_loop huart src bpp bytes_per_pixel width p_data1 p_tx_data1 pix_data1
        ⟨block :: r.tx, r.status⟩

/-- The first `switch` of `send_bmp_data`: `bytes_per_pixel` and the initial
`p_tx_data`, or `none` when the `default` branch returns. -/
def row_setup (bpp : Nat) : Option (Nat × TxPtr) :=
  if bpp = 24 then some (3, ⟨false, 0⟩)
  else if bpp = 16 then some (2, ⟨true, 0⟩)
  else if bpp = 15 then some (2, ⟨false, 0⟩)
  else none

/-- The value of `pad_row_size`; the product is taken in `uint32_t`. -/
def pad_row_size (bytes_per_pixel width : Nat) : Nat :=
  let remainder := u32 (bytes_per_pixel * width) % 4
  if remainder ≠ 0 then 4 - remainder else 0

/-- The array `pad_byte`. -/
def pad_byte : List Nat := [0, 0, 0]

/-- The function `send_bmp_data`. A null pointer is `none`; the pixel source
is the array `p_data` points to. The union `pix_data` is not initialised in
the C code; it starts as zeros here and every byte sent from it is written
first. -/
def send_bmp_data (ndebug : Bool) (huart : Option UART_HandleTypeDef)
    (p_data : Option (List Nat)) (width bpp : Nat) : Result :=
  if c_assert ndebug (bpp == 24 || bpp == 16 || bpp == 15) = false then
    ⟨[], Status.assert_failed⟩
  else
    match p_data, huart with
    | some src, some h =>
      if width = 0 then ⟨[], Status.returned⟩
      else
        match row_setup bpp with
        | none => ⟨[], Status.returned⟩
        | some (bytes_per_pixel, p_tx_data) =>
          let pad := pad_row_size bytes_per_pixel width
          let r := row_loop h src bpp bytes_per_pixel width 0 p_tx_data ⟨0, 0, 0, 0⟩
          if r.status = Status.returned then
            if pad > 0 then
              ⟨r.tx ++ [HAL_UART_Transmit h pad_byte pad], Status.returned⟩
            else r
          else r
    | _, _ => ⟨[], Status.returned⟩

/-! ## Reference functions of the statements -/

/-- The three bytes blue, green, red of the depth-24 conversion, as
mathematical values (no truncation). -/
def bgr_bytes (p : Nat) : List Nat :=
  [(p &&& 0x001F) <<< 3, (p &&& 0x07E0) >>> 3, (p &&& 0xF800) >>> 8]

/-- The RGB555 value of the depth-15 conversion, as a mathematical value. -/
def rgb555_value (p : Nat) : Nat := (p &&& 0x001F) ||| ((p >>> 1) &&& 0x7FE0)

/-- Bytes per pixel on the wire: 3 for depth 24, otherwise 2. -/
def bytesPerPixel (bpp : Nat) : Nat := if bpp = 24 then 3 else 2

/-- The converted bytes of one source pixel at the given depth. -/
def converted_bytes (bpp p : Nat) : List Nat :=
  if bpp = 24 then bgr_bytes p
  else if bpp = 15 then le16 (rgb555_value p)
  else le16 p

/-- Rounding up to the next multiple of 4. -/
def ceil_to_multiple_of_4 (n : Nat) : Nat := n + (4 - n % 4) % 4

/-- The 54-byte header block as the layout describes it: the packed
little-endian fields, with `stride = (k * (width + 1)) & ~3` and all sizes
in 32-bit unsigned arithmetic. -/
def packed_header (width height bpp : Nat) : List Nat :=
  let stride := stride_expr (bytesPerPixel bpp) width
  let bfOffBits := if bpp = 16 then 70 else 54
  let biSize := if bpp = 16 then 56 else 40
  le16 0x4D42 ++ le32 (u32 (bfOffBits + stride * height)) ++ le16 0 ++ le16 0
    ++ le32 bfOffBits ++ le32 biSize ++ le32 width ++ le32 height ++ le16 1
    ++ le16 (if bpp = 24 then 24 else 16) ++ le32 (if bpp = 16 then 3 else 0)
    ++ le32 (u32 (stride * height)) ++ le32 0 ++ le32 0 ++ le32 0 ++ le32 0

/-- The 16-byte channel-mask block. -/
def mask_block : List Nat := le32 0xF800 ++ le32 0x07E0 ++ le32 0x001F ++ le32 0

/-- The commented-out formula `(3 * (width + 1) / 4) * 4` of `send_bmp_handle`,
with the factor as a parameter. The comment is not compiled, so it is read as
a formula over the naturals. -/
def naive_stride_1 (k width : Nat) : Nat := (k * (width + 1) / 4) * 4

/-- The commented-out pair of statements `bytes_per_row = 3 * width;`
`bytes_per_row += bytes_per_row % 4 ? 4 - bytes_per_row % 4 : 0;`, with the
factor as a parameter, read as a formula over the naturals. -/
def naive_stride_2 (k width : Nat) : Nat :=
  let bytes_per_row := k * width
  bytes_per_row + (if bytes_per_row % 4 ≠ 0 then 4 - bytes_per_row % 4 else 0)

/-- A reader of a little-endian `u16` at a byte offset, as a BMP parser
does; `none` when the bytes are not there. -/
def rd16 (bs : List Nat) (off : Nat) : Option Nat :=
  match bs.drop off with
  | b0 :: b1 :: _ => some (b0 + 256 * b1)
  | _ => none

/-- A reader of a little-endian `u32` at a byte offset. -/
def rd32 (bs : List Nat) (off : Nat) : Option Nat :=
  match bs.drop off with
  | b0 :: b1 :: b2 :: b3 :: _ => some (b0 + 256 * b1 + 65536 * b2 + 16777216 * b3)
  | _ => none

/-- The sequence of row calls of a caller: `send_bmp_data` once per row, with
the same width and depth; the byte stream of all the calls together. -/
def rows_stream (ndebug : Bool) (h : UART_HandleTypeDef) (rows : List (List Nat))
    (width bpp : Nat) : List Nat :=
  (rows.map (fun r => (send_bmp_data ndebug (some h) (some r) width bpp).stream)).flatten

/-! # Lemmas -/

/-! ## Arithmetic of the stride -/

theorem and_not_0x0003 (x : Nat) (hx : x < 2 ^ 32) : x &&& not_0x0003 = 4 * (x / 4) := by
  apply Nat.eq_of_testBit_eq
  intro i
  have hc : not_0x0003 = 2 ^ 2 * (2 ^ 30 - 1) := by decide
  have h4 : (4 : Nat) * (x / 4) = 2 ^ 2 * (x >>> 2) := by
    rw [Nat.shiftRight_eq_div_pow]; norm_num
  rw [Nat.testBit_and, hc, h4, Nat.testBit_mul_pow_two, Nat.testBit_mul_pow_two,
    Nat.testBit_two_pow_sub_one, Nat.testBit_shiftRight]
  by_cases h2 : i ≥ 2
  · by_cases h32 : i < 32
    · have e : 2 + (i - 2) = i := by omega
      have l : i - 2 < 30 := by omega
      simp [h2, e, l]
    · have hf : x.testBit i = false := by
        apply Nat.testBit_lt_two_pow
        calc x < 2 ^ 32 := hx
          _ ≤ 2 ^ i := Nat.pow_le_pow_right (by decide) (by omega)
      have e : 2 + (i - 2) = i := by omega
      have l : ¬ (i - 2 < 30) := by omega
      simp [hf, e, l]
  · simp [h2]

theorem u32_lt (n : Nat) : u32 n < 2 ^ 32 := Nat.mod_lt _ (by decide)

theorem u32_of_lt {n : Nat} (h : n < 2 ^ 32) : u32 n = n := Nat.mod_eq_of_lt h

theorem stride_expr_eq (k width : Nat) :
    stride_expr k width = 4 * (u32 (k * u32 (width + 1)) / 4) := by
  unfold stride_expr
  exact and_not_0x0003 _ (u32_lt _)

theorem stride_expr_lt (k width : Nat) : stride_expr k width < 2 ^ 32 := by
  rw [stride_expr_eq]
  have := u32_lt (k * u32 (width + 1))
  omega

theorem stride_expr_no_overflow (k width : Nat) (h : k * (width + 1) < 2 ^ 32) (hk : 1 ≤ k) :
    stride_expr k width = 4 * (k * (width + 1) / 4) := by
  have hw : width + 1 < 2 ^ 32 := by
    calc width + 1 ≤ k * (width + 1) := Nat.le_mul_of_pos_left _ hk
      _ < 2 ^ 32 := h
  rw [stride_expr_eq, u32_of_lt hw, u32_of_lt h]

theorem to_uint32_to_int32 (n : Nat) : to_uint32 (to_int32 n) = u32 n := by
  unfold to_uint32 to_int32
  have h := u32_lt n
  split <;> omega

/-! ## The per-pixel conversions stay inside their storage -/

theorem blue_le (p : Nat) : (p &&& 0x001F) <<< 3 ≤ 0xFF := by
  have h : p &&& 0x001F ≤ 0x001F := Nat.and_le_right
  rw [Nat.shiftLeft_eq]
  omega

theorem green_le (p : Nat) : (p &&& 0x07E0) >>> 3 ≤ 0xFF := by
  have h : p &&& 0x07E0 ≤ 0x07E0 := Nat.and_le_right
  rw [Nat.shiftRight_eq_div_pow]
  omega

theorem red_le (p : Nat) : (p &&& 0xF800) >>> 8 ≤ 0xFF := by
  have h : p &&& 0xF800 ≤ 0xF800 := Nat.and_le_right
  rw [Nat.shiftRight_eq_div_pow]
  omega

theorem rgb555_value_lt (p : Nat) : rgb555_value p < 2 ^ 15 := by
  unfold rgb555_value
  apply Nat.or_lt_two_pow
  · have h : p &&& 0x001F ≤ 0x001F := Nat.and_le_right
    omega
  · have h : (p >>> 1) &&& 0x7FE0 ≤ 0x7FE0 := Nat.and_le_right
    omega

theorem u8_of_le {n : Nat} (h : n ≤ 0xFF) : u8 n = n := Nat.mod_eq_of_lt (by omega)

theorem u16_rgb555 (p : Nat) :
    u16 ((p &&& 0x001F) ||| ((p >>> 1) &&& 0x7FE0)) = rgb555_value p := by
  have h := rgb555_value_lt p
  unfold rgb555_value at h
  unfold rgb555_value u16
  exact Nat.mod_eq_of_lt (by omega)

/-! ## The loop of `send_bmp_data` -/

theorem take_succ_drop (src : List Nat) (n i : Nat) (hi : i < src.length) :
    (src.drop i).take (n + 1) = src[i] :: (src.drop (i + 1)).take n := by
  rw [List.drop_eq_getElem_cons hi, List.take_succ_cons]

theorem read_tx_pix (src : List Nat) (pix : PixData) (n : Nat) (hn : n ≤ 4) :
    read_tx src pix ⟨false, 0⟩ n = some (pix.bytes.take n) := by
  simp [read_tx, PixData.bytes, hn]

theorem read_tx_src (src : List Nat) (pix : PixData) (i : Nat) (hi : i < src.length) :
    read_tx src pix ⟨true, i⟩ 2 = some (le16 src[i]) := by
  unfold read_tx
  simp only [if_true]
  rw [List.drop_eq_getElem_cons hi, List.map_cons, List.flatten_cons]
  simp [le16]

theorem row_loop_24 (h : UART_HandleTypeDef) (src : List Nat) :
    ∀ (n i : Nat) (pix : PixData), i + n ≤ src.length →
      row_loop h src 24 3 n i ⟨false, 0⟩ pix
        = ⟨((src.drop i).take n).map bgr_bytes, Status.returned⟩ := by
  intro n
  induction n with
  | zero => intro i pix _; simp [row_loop]
  | succ n ih =>
    intro i pix hle
    have hi : i < src.length := by omega
    rw [take_succ_drop src n i hi, List.map_cons, row_loop]
    simp [convert_pixel, List.getElem?_eq_getElem hi, read_tx_pix _ _ 3 (by decide),
      ih (i + 1) _ (by omega), PixData.bytes, HAL_UART_Transmit, bgr_bytes,
      u8_of_le (blue_le _), u8_of_le (green_le _), u8_of_le (red_le _)]

theorem row_loop_15 (h : UART_HandleTypeDef) (src : List Nat) :
    ∀ (n i : Nat) (pix : PixData), i + n ≤ src.length →
      row_loop h src 15 2 n i ⟨false, 0⟩ pix
        = ⟨((src.drop i).take n).map (fun p => le16 (rgb555_value p)), Status.returned⟩ := by
  intro n
  induction n with
  | zero => intro i pix _; simp [row_loop]
  | succ n ih =>
    intro i pix hle
    have hi : i < src.length := by omega
    rw [take_succ_drop src n i hi, List.map_cons, row_loop]
    simp [convert_pixel, List.getElem?_eq_getElem hi, read_tx_pix _ _ 2 (by decide),
      ih (i + 1) _ (by omega), PixData.bytes, HAL_UART_Transmit, le16, u16_rgb555]

theorem row_loop_16 (h : UART_HandleTypeDef) (src : List Nat) :
    ∀ (n i : Nat) (pix : PixData), i + n ≤ src.length →
      row_loop h src 16 2 n 0 ⟨true, i⟩ pix
        = ⟨((src.drop i).take n).map le16, Status.returned⟩ := by
  intro n
  induction n with
  | zero => intro i pix _; simp [row_loop]
  | succ n ih =>
    intro i pix hle
    have hi : i < src.length := by omega
    rw [take_succ_drop src n i hi, List.map_cons, row_loop]
    simp [convert_pixel, read_tx_src _ _ i hi, ih (i + 1) _ (by omega), HAL_UART_Transmit,
      le16]

/-! ## The row as a whole -/

theorem pad_row_size_eq (k w : Nat) : pad_row_size k w = (4 - (k * w) % 4) % 4 := by
  unfold pad_row_size u32
  generalize k * w = m
  simp only []
  split <;> omega

theorem pad_row_size_le (k w : Nat) : pad_row_size k w ≤ 3 := by
  rw [pad_row_size_eq]; omega

theorem pad_block (h : UART_HandleTypeDef) (n : Nat) (hn : n ≤ 3) :
    HAL_UART_Transmit h pad_byte n = List.replicate n 0 := by
  unfold HAL_UART_Transmit pad_byte
  interval_cases n <;> rfl

theorem row_setup_loop (h : UART_HandleTypeDef) (src : List Nat) (w bpp : Nat)
    (hb : bpp = 15 ∨ bpp = 16 ∨ bpp = 24) (hl : w ≤ src.length) :
    ∃ p, row_setup bpp = some (bytesPerPixel bpp, p) ∧
      row_loop h src bpp (bytesPerPixel bpp) w 0 p ⟨0, 0, 0, 0⟩
        = ⟨(src.take w).map (converted_bytes bpp), Status.returned⟩ := by
  rcases hb with rfl | rfl | rfl
  · refine ⟨⟨false, 0⟩, by simp [row_setup, bytesPerPixel], ?_⟩
    have e := row_loop_15 h src w 0 ⟨0, 0, 0, 0⟩ (by omega)
    simpa [bytesPerPixel, converted_bytes] using e
  · refine ⟨⟨true, 0⟩, by simp [row_setup, bytesPerPixel], ?_⟩
    have e := row_loop_16 h src w 0 ⟨0, 0, 0, 0⟩ (by omega)
    simpa [bytesPerPixel, converted_bytes] using e
  · refine ⟨⟨false, 0⟩, by simp [row_setup, bytesPerPixel], ?_⟩
    have e := row_loop_24 h src w 0 ⟨0, 0, 0, 0⟩ (by omega)
    simpa [bytesPerPixel, converted_bytes] using e

theorem send_bmp_data_tx (ndebug : Bool) (h : UART_HandleTypeDef) (src : List Nat)
    (w bpp : Nat) (hb : bpp = 15 ∨ bpp = 16 ∨ bpp = 24) (hw : 1 ≤ w) (hl : w ≤ src.length) :
    send_bmp_data ndebug (some h) (some src) w bpp
      = ⟨(src.take w).map (converted_bytes bpp)
          ++ (if 0 < pad_row_size (bytesPerPixel bpp) w
              then [List.replicate (pad_row_size (bytesPerPixel bpp) w) 0] else []),
         Status.returned⟩ := by
  obtain ⟨p, hp, hloop⟩ := row_setup_loop h src w bpp hb hl
  have ha : c_assert ndebug (bpp == 24 || bpp == 16 || bpp == 15) = true := by
    rcases hb with rfl | rfl | rfl <;> simp [c_assert]
  have hw0 : w ≠ 0 := by omega
  unfold send_bmp_data
  simp only [ha, hp, hloop, hw0, pad_block h _ (pad_row_size_le _ _)]
  by_cases hpad : 0 < pad_row_size (bytesPerPixel bpp) w
  · simp [hpad]
  · simp [hpad]

theorem length_converted_bytes (bpp p : Nat) :
    (converted_bytes bpp p).length = bytesPerPixel bpp := by
  unfold converted_bytes bytesPerPixel bgr_bytes le16
  split
  · rfl
  · split <;> rfl

theorem length_flatten_const (f : Nat → List Nat) (c : Nat) (hf : ∀ p, (f p).length = c) :
    ∀ l : List Nat, ((l.map f).flatten).length = c * l.length := by
  intro l
  induction l with
  | nil => simp
  | cons a t ih =>
    rw [List.map_cons, List.flatten_cons, List.length_append, ih, hf, List.length_cons]
    ring

theorem send_bmp_data_stream (ndebug : Bool) (h : UART_HandleTypeDef) (src : List Nat)
    (w bpp : Nat) (hb : bpp = 15 ∨ bpp = 16 ∨ bpp = 24) (hw : 1 ≤ w) (hl : w ≤ src.length) :
    (send_bmp_data ndebug (some h) (some src) w bpp).stream
      = ((src.take w).map (converted_bytes bpp)).flatten
          ++ List.replicate (pad_row_size (bytesPerPixel bpp) w) 0 := by
  rw [send_bmp_data_tx ndebug h src w bpp hb hw hl]
  unfold Result.stream
  simp only [List.flatten_append]
  split
  · simp
  · have h0 : pad_row_size (bytesPerPixel bpp) w = 0 := by omega
    simp [h0]

theorem send_bmp_data_stream_length (ndebug : Bool) (h : UART_HandleTypeDef) (src : List Nat)
    (w bpp : Nat) (hb : bpp = 15 ∨ bpp = 16 ∨ bpp = 24) (hw : 1 ≤ w) (hl : w ≤ src.length) :
    (send_bmp_data ndebug (some h) (some src) w bpp).stream.length
      = bytesPerPixel bpp * w + pad_row_size (bytesPerPixel bpp) w := by
  rw [send_bmp_data_stream ndebug h src w bpp hb hw hl, List.length_append,
    length_flatten_const _ _ (length_converted_bytes bpp), List.length_replicate,
    List.length_take, Nat.min_eq_left hl]

/-! ## The header -/

theorem le32_u32 (n : Nat) : le32 (u32 n) = le32 n := by
  unfold le32 u32
  have h0 : n % 2 ^ 32 % 256 = n % 256 := by omega
  have h1 : n % 2 ^ 32 / 256 % 256 = n / 256 % 256 := by omega
  have h2 : n % 2 ^ 32 / 65536 % 256 = n / 65536 % 256 := by omega
  have h3 : n % 2 ^ 32 / 16777216 % 256 = n / 16777216 % 256 := by omega
  rw [h0, h1, h2, h3]

theorem length_le16 (n : Nat) : (le16 n).length = 2 := rfl

theorem length_le32 (n : Nat) : (le32 n).length = 4 := rfl

theorem length_packed_header (width height bpp : Nat) :
    (packed_header width height bpp).length = 54 := by
  simp [packed_header, length_le16, length_le32]

theorem bytes_per_row_valid (width bpp : Nat) (hb : bpp = 15 ∨ bpp = 16 ∨ bpp = 24) :
    bytes_per_row width bpp = some (to_int32 (stride_expr (bytesPerPixel bpp) width)) := by
  rcases hb with rfl | rfl | rfl <;> simp [bytes_per_row, bytesPerPixel]

theorem to_uint32_stride (k width : Nat) :
    to_uint32 (to_int32 (stride_expr k width)) = stride_expr k width := by
  rw [to_uint32_to_int32, u32_of_lt (stride_expr_lt k width)]

theorem u32_add_mask (m : Nat) : u32 (u32 (54 + u32 m) + 16) = u32 (70 + m) := by
  unfold u32; omega

theorem u32_add_head (m : Nat) : u32 (54 + u32 m) = u32 (54 + m) := by
  unfold u32; omega

theorem le32_add_mask (m : Nat) : le32 (u32 (54 + m) + 16) = le32 (70 + m) := by
  rw [← le32_u32 (u32 (54 + m) + 16), ← le32_u32 (70 + m)]
  congr 1
  unfold u32; omega

theorem u32_small_54 : u32 54 = 54 := rfl

theorem u32_small_40 : u32 40 = 40 := rfl

theorem header_bytes (width height bpp : Nat) (hb : bpp = 15 ∨ bpp = 16 ∨ bpp = 24) :
    (adjust_header bpp (init_header width height
        (to_int32 (stride_expr (bytesPerPixel bpp) width)))).bytes
      = packed_header width height bpp := by
  rcases hb with rfl | rfl | rfl <;>
    simp [adjust_header, init_header, BMP_Header.bytes, BMPFileHeader.bytes,
      BMPInfoHeader.bytes, packed_header, to_uint32_stride, sizeof_BMP_Header,
      sizeof_BMPInfoHeader, sizeof_BMPMask, BMPFILETYPE, u32_add_mask, u32_add_head,
      le32_u32, le32_add_mask, u32_small_54, u32_small_40, u16]

theorem send_bmp_handle_eq (ndebug : Bool) (h : UART_HandleTypeDef)
    (width height bpp : Nat) (hb : bpp = 15 ∨ bpp = 16 ∨ bpp = 24) :
    send_bmp_handle ndebug h width height bpp
      = ⟨packed_header width height bpp :: (if bpp = 16 then [mask_block] else []),
         Status.returned⟩ := by
  have ha : c_assert ndebug (bpp == 24 || bpp == 16 || bpp == 15) = true := by
    rcases hb with rfl | rfl | rfl <;> simp [c_assert]
  have hlen := length_packed_header width height bpp
  have hhead : HAL_UART_Transmit h (packed_header width height bpp) sizeof_BMP_Header
      = packed_header width height bpp := by
    unfold HAL_UART_Transmit sizeof_BMP_Header
    exact List.take_of_length_le (by omega)
  have hmask : HAL_UART_Transmit h mask.bytes sizeof_BMPMask = mask_block := by rfl
  unfold send_bmp_handle
  simp only [ha, bytes_per_row_valid width bpp hb, header_bytes width height bpp hb, hhead,
    hmask]
  by_cases h16 : bpp = 16 <;> simp [h16]

/-! ## Reading the header back -/

theorem rd32_bytes (n : Nat) (hn : n < 2 ^ 32) :
    n % 256 + 256 * (n / 256 % 256) + 65536 * (n / 65536 % 256)
      + 16777216 * (n / 16777216 % 256) = n := by
  omega

theorem send_bmp_handle_stream (ndebug : Bool) (h : UART_HandleTypeDef)
    (width height bpp : Nat) (hb : bpp = 15 ∨ bpp = 16 ∨ bpp = 24) :
    (send_bmp_handle ndebug h width height bpp).stream
      = packed_header width height bpp ++ (if bpp = 16 then mask_block else []) := by
  rw [send_bmp_handle_eq ndebug h width height bpp hb]
  unfold Result.stream
  by_cases h16 : bpp = 16 <;> simp [h16]

theorem rd16_header_0 (width height bpp : Nat) (rest : List Nat) :
    rd16 (packed_header width height bpp ++ rest) 0 = some 0x4D42 := by
  simp [packed_header, le16, le32, rd16]

theorem rd32_header_2 (width height bpp : Nat) (rest : List Nat) :
    rd32 (packed_header width height bpp ++ rest) 2
      = some (u32 ((if bpp = 16 then 70 else 54)
          + stride_expr (bytesPerPixel bpp) width * height)) := by
  simp only [packed_header, le16, le32, rd32, List.cons_append, List.nil_append,
    List.drop_succ_cons, List.drop_zero]
  exact congrArg some (rd32_bytes _ (u32_lt _))

theorem rd32_header_10 (width height bpp : Nat) (rest : List Nat) :
    rd32 (packed_header width height bpp ++ rest) 10 = some (if bpp = 16 then 70 else 54) := by
  simp only [packed_header, le16, le32, rd32, List.cons_append, List.nil_append,
    List.drop_succ_cons, List.drop_zero]
  exact congrArg some (rd32_bytes _ (by split <;> decide))

theorem rd32_header_18 (width height bpp : Nat) (rest : List Nat) (hw : width < 2 ^ 32) :
    rd32 (packed_header width height bpp ++ rest) 18 = some width := by
  simp only [packed_header, le16, le32, rd32, List.cons_append, List.nil_append,
    List.drop_succ_cons, List.drop_zero]
  exact congrArg some (rd32_bytes _ hw)

theorem rd32_header_22 (width height bpp : Nat) (rest : List Nat) (hh : height < 2 ^ 32) :
    rd32 (packed_header width height bpp ++ rest) 22 = some height := by
  simp only [packed_header, le16, le32, rd32, List.cons_append, List.nil_append,
    List.drop_succ_cons, List.drop_zero]
  exact congrArg some (rd32_bytes _ hh)

theorem rd16_header_28 (width height bpp : Nat) (rest : List Nat) :
    rd16 (packed_header width height bpp ++ rest) 28 = some (if bpp = 24 then 24 else 16) := by
  simp only [packed_header, le16, le32, rd16, List.cons_append, List.nil_append,
    List.drop_succ_cons, List.drop_zero]
  split <;> rfl

theorem rd32_header_34 (width height bpp : Nat) (rest : List Nat) :
    rd32 (packed_header width height bpp ++ rest) 34
      = some (u32 (stride_expr (bytesPerPixel bpp) width * height)) := by
  simp only [packed_header, le16, le32, rd32, List.cons_append, List.nil_append,
    List.drop_succ_cons, List.drop_zero]
  exact congrArg some (rd32_bytes _ (u32_lt _))

/-! ## The bit trick against the ceiling -/

theorem stride_expr_ceiling (k width : Nat) (hk : k = 2 ∨ k = 3)
    (hov : k * (width + 1) < 2 ^ 32) :
    stride_expr k width = k * width + (4 - (k * width) % 4) % 4 := by
  rw [stride_expr_no_overflow k width hov (by omega)]
  rcases hk with rfl | rfl <;> omega

theorem bytesPerPixel_cases (bpp : Nat) : bytesPerPixel bpp = 2 ∨ bytesPerPixel bpp = 3 := by
  unfold bytesPerPixel
  split <;> simp

theorem length_rows_stream (ndebug : Bool) (h : UART_HandleTypeDef) (w bpp : Nat)
    (hb : bpp = 15 ∨ bpp = 16 ∨ bpp = 24) (hw : 1 ≤ w) :
    ∀ rows : List (List Nat), (∀ r ∈ rows, w ≤ r.length) →
      (rows_stream ndebug h rows w bpp).length
        = rows.length * (bytesPerPixel bpp * w + pad_row_size (bytesPerPixel bpp) w) := by
  intro rows
  induction rows with
  | nil => intro _; simp [rows_stream]
  | cons r t ih =>
    intro hall
    have hr : w ≤ r.length := hall r (List.mem_cons_self r t)
    have ht : ∀ r ∈ t, w ≤ r.length := fun x hx => hall x (List.mem_cons_of_mem r hx)
    have e := ih ht
    unfold rows_stream at e ⊢
    rw [List.map_cons, List.flatten_cons, List.length_append, e,
      send_bmp_data_stream_length ndebug h r w bpp hb hw hr, List.length_cons]
    ring

theorem u32_wrap (x : Nat) : ∃ j, x = u32 x + 2 ^ 32 * j ∧ u32 x < 2 ^ 32 :=
  ⟨x / 2 ^ 32, by unfold u32; omega, u32_lt x⟩

theorem to_int32_stride_ge (k w : Nat) (hk : k = 2 ∨ k = 3) (hw : w < 2 ^ 32) :
    to_int32 (stride_expr k w) ≥ ((k * w : Nat) : Int) ↔ k * (w + 1) < 2 ^ 31 := by
  have hlt := stride_expr_lt k w
  have hs := stride_expr_eq k w
  obtain ⟨j, hj, hjlt⟩ := u32_wrap (k * u32 (w + 1))
  have hu : u32 (w + 1) = w + 1 ∨ (w + 1 = 2 ^ 32 ∧ u32 (w + 1) = 0) := by
    by_cases hw1 : w + 1 < 2 ^ 32
    · exact Or.inl (u32_of_lt hw1)
    · right
      have e : w + 1 = 2 ^ 32 := by omega
      exact ⟨e, by rw [e]; rfl⟩
  generalize stride_expr k w = s at hlt hs ⊢
  generalize u32 (k * u32 (w + 1)) = x at hs hj hjlt
  have hsx : s ≤ x ∧ x < s + 4 := by omega
  unfold to_int32
  rw [u32_of_lt hlt]
  rcases hu with hu | ⟨hw1, hu⟩
  · have hw1 := u32_lt (w + 1)
    rw [hu] at hj hw1
    have hj2 : j ≤ 2 := by
      rcases hk with rfl | rfl <;> omega
    rcases hk with rfl | rfl <;> split <;> interval_cases j <;> omega
  · rw [hu] at hj
    have hx0 : x = 0 := by
      rcases hk with rfl | rfl <;> omega
    rcases hk with rfl | rfl <;> split <;> omega

/-! # The claims -/

theorem tx_getElem (ndebug : Bool) (h : UART_HandleTypeDef) (src : List Nat)
    (w bpp i p : Nat) (hb : bpp = 15 ∨ bpp = 16 ∨ bpp = 24) (hi : i < w)
    (hl : w ≤ src.length) (hp : src[i]? = some p) :
    (send_bmp_data ndebug (some h) (some src) w bpp).tx[i]? = some (converted_bytes bpp p) := by
  rw [send_bmp_data_tx ndebug h src w bpp hb (by omega) hl]
  have hlen : i < ((src.take w).map (converted_bytes bpp)).length := by
    rw [List.length_map, List.length_take]
    omega
  simp only []
  rw [List.getElem?_append_left hlen, List.getElem?_map, List.getElem?_take_of_lt hi, hp]
  rfl

/-- C1: for a depth in {15, 16, 24}, a width `w ≥ 1` and a source of at least
`w` pixels, `send_bmp_data` returns normally and the byte stream it emits is
the concatenation, in source order, of the converted bytes of the first `w`
pixels (each pixel giving `bytesPerPixel` bytes), followed by exactly
`(4 - (bytesPerPixel * w mod 4)) mod 4` zero bytes; the row length is
`bytesPerPixel * w + pad`, a multiple of 4, and the pad is at most 3. -/
theorem row_stream_layout (ndebug : Bool) (h : UART_HandleTypeDef) (src : List Nat)
    (w bpp : Nat) (hb : bpp = 15 ∨ bpp = 16 ∨ bpp = 24) (hw : 1 ≤ w) (hl : w ≤ src.length) :
    (send_bmp_data ndebug (some h) (some src) w bpp).status = Status.returned
    ∧ (send_bmp_data ndebug (some h) (some src) w bpp).stream
        = ((src.take w).map (converted_bytes bpp)).flatten
            ++ List.replicate ((4 - (bytesPerPixel bpp * w) % 4) % 4) 0
    ∧ (∀ p, (converted_bytes bpp p).length = bytesPerPixel bpp)
    ∧ (send_bmp_data ndebug (some h) (some src) w bpp).stream.length
        = bytesPerPixel bpp * w + (4 - (bytesPerPixel bpp * w) % 4) % 4
    ∧ (send_bmp_data ndebug (some h) (some src) w bpp).stream.length % 4 = 0
    ∧ (4 - (bytesPerPixel bpp * w) % 4) % 4 ≤ 3 := by
  have hlen := send_bmp_data_stream_length ndebug h src w bpp hb hw hl
  have hstr := send_bmp_data_stream ndebug h src w bpp hb hw hl
  rw [pad_row_size_eq] at hlen hstr
  refine ⟨?_, hstr, length_converted_bytes bpp, hlen, ?_, by omega⟩
  · rw [send_bmp_data_tx ndebug h src w bpp hb hw hl]
  · rw [hlen]; omega

/-- Witness of C1: five pixels at depth 15 give 10 data bytes and 2 pad bytes. -/
theorem row_stream_layout_witness :
    ((15 = 15 ∨ 15 = 16 ∨ 15 = 24) ∧ 1 ≤ 5
      ∧ 5 ≤ [0xFFFF, 0xF800, 0x07E0, 0x001F, 0x1234, 0xABCD].length)
    ∧ ((send_bmp_data false (some ⟨0⟩)
          (some [0xFFFF, 0xF800, 0x07E0, 0x001F, 0x1234, 0xABCD]) 5 15).status
        = Status.returned
      ∧ (send_bmp_data false (some ⟨0⟩)
          (some [0xFFFF, 0xF800, 0x07E0, 0x001F, 0x1234, 0xABCD]) 5 15).stream
        = (([0xFFFF, 0xF800, 0x07E0, 0x001F, 0x1234, 0xABCD].take 5).map
              (converted_bytes 15)).flatten
            ++ List.replicate ((4 - (bytesPerPixel 15 * 5) % 4) % 4) 0
      ∧ (∀ p, (converted_bytes 15 p).length = bytesPerPixel 15)
      ∧ (send_bmp_data false (some ⟨0⟩)
          (some [0xFFFF, 0xF800, 0x07E0, 0x001F, 0x1234, 0xABCD]) 5 15).stream.length
        = bytesPerPixel 15 * 5 + (4 - (bytesPerPixel 15 * 5) % 4) % 4
      ∧ (send_bmp_data false (some ⟨0⟩)
          (some [0xFFFF, 0xF800, 0x07E0, 0x001F, 0x1234, 0xABCD]) 5 15).stream.length % 4 = 0
      ∧ (4 - (bytesPerPixel 15 * 5) % 4) % 4 ≤ 3) :=
  ⟨⟨by decide, by decide, by decide⟩,
    row_stream_layout false ⟨0⟩ [0xFFFF, 0xF800, 0x07E0, 0x001F, 0x1234, 0xABCD] 5 15
      (by decide) (by decide) (by decide)⟩

/-- The two rows named with C1, evaluated on the code: one pixel at depth 24
gives 3 data bytes and 1 pad byte; five pixels at depth 15 give 10 data bytes
and 2 pad bytes. -/
theorem row_stream_examples :
    (send_bmp_data false (some ⟨0⟩) (some [0xF800]) 1 24).stream = [0x00, 0x00, 0xF8, 0x00]
    ∧ (send_bmp_data false (some ⟨0⟩)
        (some [0xFFFF, 0xF800, 0x07E0, 0x001F, 0x1234, 0xABCD]) 5 15).stream
      = [0xFF, 0x7F, 0x00, 0x7C, 0xE0, 0x03, 0x1F, 0x00, 0x14, 0x09, 0x00, 0x00] := by
  constructor <;> decide

/-- C2: for every width and height and a depth in {15, 16, 24}, the first
block `send_bmp_handle` emits has 54 bytes and is the packed little-endian
serialisation of bfType = 0x4D42 (bytes 0x42, 0x4D), bfSize, two zero
reserved words, bfOffBits, biSize, biWidth = width, biHeight = height,
biPlanes = 1, biBitCount (24 for depth 24, else 16), biCompression (3 for
depth 16, else 0), biSizeImage = stride * height and four zero words, where
bfOffBits = 54 and biSize = 40 (70 and 56 for depth 16), bfSize =
bfOffBits + stride * height, stride = `(bytesPerPixel * (width + 1)) & ~3`,
all in arithmetic modulo 2^32. -/
theorem header_block_layout (ndebug : Bool) (h : UART_HandleTypeDef)
    (width height bpp : Nat) (hb : bpp = 15 ∨ bpp = 16 ∨ bpp = 24) :
    ∃ rest,
      (send_bmp_handle ndebug h width height bpp).status = Status.returned
      ∧ (send_bmp_handle ndebug h width height bpp).tx
        = (le16 0x4D42
            ++ le32 (u32 ((if bpp = 16 then 70 else 54)
                + stride_expr (bytesPerPixel bpp) width * height))
            ++ le16 0 ++ le16 0
            ++ le32 (if bpp = 16 then 70 else 54)
            ++ le32 (if bpp = 16 then 56 else 40)
            ++ le32 width ++ le32 height ++ le16 1
            ++ le16 (if bpp = 24 then 24 else 16)
            ++ le32 (if bpp = 16 then 3 else 0)
            ++ le32 (u32 (stride_expr (bytesPerPixel bpp) width * height))
            ++ le32 0 ++ le32 0 ++ le32 0 ++ le32 0) :: rest
      ∧ (le16 0x4D42
            ++ le32 (u32 ((if bpp = 16 then 70 else 54)
                + stride_expr (bytesPerPixel bpp) width * height))
            ++ le16 0 ++ le16 0
            ++ le32 (if bpp = 16 then 70 else 54)
            ++ le32 (if bpp = 16 then 56 else 40)
            ++ le32 width ++ le32 height ++ le16 1
            ++ le16 (if bpp = 24 then 24 else 16)
            ++ le32 (if bpp = 16 then 3 else 0)
            ++ le32 (u32 (stride_expr (bytesPerPixel bpp) width * height))
            ++ le32 0 ++ le32 0 ++ le32 0 ++ le32 0).length = 54
      ∧ le16 0x4D42 = [0x42, 0x4D]
      ∧ bytes_per_row width bpp = some (to_int32 (stride_expr (bytesPerPixel bpp) width)) := by
  refine ⟨if bpp = 16 then [mask_block] else [], ?_, ?_, ?_, rfl, bytes_per_row_valid width bpp hb⟩
  · rw [send_bmp_handle_eq ndebug h width height bpp hb]
  · rw [send_bmp_handle_eq ndebug h width height bpp hb]
    rfl
  · exact length_packed_header width height bpp

/-- Witness of C2: the header of a 5 x 7 image at depth 16 (stride 12). -/
theorem header_block_layout_witness :
    (16 = 15 ∨ 16 = 16 ∨ 16 = 24)
    ∧ ∃ rest,
      (send_bmp_handle false ⟨0⟩ 5 7 16).status = Status.returned
      ∧ (send_bmp_handle false ⟨0⟩ 5 7 16).tx
        = (le16 0x4D42
            ++ le32 (u32 ((if 16 = 16 then 70 else 54) + stride_expr (bytesPerPixel 16) 5 * 7))
            ++ le16 0 ++ le16 0
            ++ le32 (if 16 = 16 then 70 else 54)
            ++ le32 (if 16 = 16 then 56 else 40)
            ++ le32 5 ++ le32 7 ++ le16 1
            ++ le16 (if 16 = 24 then 24 else 16)
            ++ le32 (if 16 = 16 then 3 else 0)
            ++ le32 (u32 (stride_expr (bytesPerPixel 16) 5 * 7))
            ++ le32 0 ++ le32 0 ++ le32 0 ++ le32 0) :: rest
      ∧ (le16 0x4D42
            ++ le32 (u32 ((if 16 = 16 then 70 else 54) + stride_expr (bytesPerPixel 16) 5 * 7))
            ++ le16 0 ++ le16 0
            ++ le32 (if 16 = 16 then 70 else 54)
            ++ le32 (if 16 = 16 then 56 else 40)
            ++ le32 5 ++ le32 7 ++ le16 1
            ++ le16 (if 16 = 24 then 24 else 16)
            ++ le32 (if 16 = 16 then 3 else 0)
            ++ le32 (u32 (stride_expr (bytesPerPixel 16) 5 * 7))
            ++ le32 0 ++ le32 0 ++ le32 0 ++ le32 0).length = 54
      ∧ le16 0x4D42 = [0x42, 0x4D]
      ∧ bytes_per_row 5 16 = some (to_int32 (stride_expr (bytesPerPixel 16) 5)) :=
  ⟨by decide, header_block_layout false ⟨0⟩ 5 7 16 (by decide)⟩

/-- The header blocks of a 5 x 7 image at the three depths, evaluated on the
code. -/
theorem header_block_examples :
    (send_bmp_handle false ⟨0⟩ 5 7 24).tx
      = [[0x42, 0x4D, 166, 0, 0, 0, 0, 0, 0, 0, 54, 0, 0, 0, 40, 0, 0, 0, 5, 0, 0, 0,
          7, 0, 0, 0, 1, 0, 24, 0, 0, 0, 0, 0, 112, 0, 0, 0, 0, 0, 0, 0, 0, 0, 0, 0,
          0, 0, 0, 0, 0, 0, 0, 0]]
    ∧ (send_bmp_handle false ⟨0⟩ 5 7 15).tx
      = [[0x42, 0x4D, 138, 0, 0, 0, 0, 0, 0, 0, 54, 0, 0, 0, 40, 0, 0, 0, 5, 0, 0, 0,
          7, 0, 0, 0, 1, 0, 16, 0, 0, 0, 0, 0, 84, 0, 0, 0, 0, 0, 0, 0, 0, 0, 0, 0,
          0, 0, 0, 0, 0, 0, 0, 0]]
    ∧ (send_bmp_handle false ⟨0⟩ 5 7 16).tx
      = [[0x42, 0x4D, 154, 0, 0, 0, 0, 0, 0, 0, 70, 0, 0, 0, 56, 0, 0, 0, 5, 0, 0, 0,
          7, 0, 0, 0, 1, 0, 16, 0, 3, 0, 0, 0, 84, 0, 0, 0, 0, 0, 0, 0, 0, 0, 0, 0,
          0, 0, 0, 0, 0, 0, 0, 0],
         [0x00, 0xF8, 0, 0, 0xE0, 0x07, 0, 0, 0x1F, 0, 0, 0, 0, 0, 0, 0]] := by
  refine ⟨?_, ?_, ?_⟩ <;> decide

/-- C4: at depth 24 the block emitted for a source pixel `p` (the `i`-th
block for the `i`-th pixel of the row) is exactly the three bytes blue =
`(p & 0x001F) << 3`, green = `(p & 0x07E0) >> 3`, red = `(p & 0xF800) >> 8`
in this order, and each of them is at most 0xFF. -/
theorem pixel_depth24 (ndebug : Bool) (h : UART_HandleTypeDef) (src : List Nat)
    (w i p : Nat) (hi : i < w) (hl : w ≤ src.length) (hp : src[i]? = some p) :
    (send_bmp_data ndebug (some h) (some src) w 24).tx[i]?
        = some [(p &&& 0x001F) <<< 3, (p &&& 0x07E0) >>> 3, (p &&& 0xF800) >>> 8]
    ∧ (p &&& 0x001F) <<< 3 ≤ 0xFF
    ∧ (p &&& 0x07E0) >>> 3 ≤ 0xFF
    ∧ (p &&& 0xF800) >>> 8 ≤ 0xFF := by
  refine ⟨?_, blue_le p, green_le p, red_le p⟩
  rw [tx_getElem ndebug h src w 24 i p (by decide) hi hl hp]
  rfl

/-- Witness of C4: pure green 0x07E0 as the second pixel of a row. -/
theorem pixel_depth24_witness :
    (1 < 2 ∧ 2 ≤ [0xF800, 0x07E0].length ∧ [0xF800, 0x07E0][1]? = some 0x07E0)
    ∧ ((send_bmp_data false (some ⟨0⟩) (some [0xF800, 0x07E0]) 2 24).tx[1]?
        = some [(0x07E0 &&& 0x001F) <<< 3, (0x07E0 &&& 0x07E0) >>> 3,
            (0x07E0 &&& 0xF800) >>> 8]
      ∧ (0x07E0 &&& 0x001F) <<< 3 ≤ 0xFF
      ∧ (0x07E0 &&& 0x07E0) >>> 3 ≤ 0xFF
      ∧ (0x07E0 &&& 0xF800) >>> 8 ≤ 0xFF) :=
  ⟨⟨by decide, by decide, by decide⟩,
    pixel_depth24 false ⟨0⟩ [0xF800, 0x07E0] 2 1 0x07E0 (by decide) (by decide) (by decide)⟩

/-- The two pixels named with C4, evaluated on the code: 0xF800 gives
(0x00, 0x00, 0xF8) and 0x07E0 gives (0x00, 0xFC, 0x00). -/
theorem pixel_depth24_examples :
    (send_bmp_data false (some ⟨0⟩) (some [0xF800, 0x07E0]) 2 24).tx
      = [[0x00, 0x00, 0xF8], [0x00, 0xFC, 0x00], [0x00, 0x00]] := by
  decide

/-- C5: at depth 15 the block emitted for a source pixel `p` is exactly two
bytes, the low byte and then the high byte of the 16-bit value
`(p & 0x001F) | ((p >> 1) & 0x7FE0)`. -/
theorem pixel_depth15 (ndebug : Bool) (h : UART_HandleTypeDef) (src : List Nat)
    (w i p : Nat) (hi : i < w) (hl : w ≤ src.length) (hp : src[i]? = some p) :
    (send_bmp_data ndebug (some h) (some src) w 15).tx[i]?
        = some [((p &&& 0x001F) ||| ((p >>> 1) &&& 0x7FE0)) % 256,
                ((p &&& 0x001F) ||| ((p >>> 1) &&& 0x7FE0)) / 256]
    ∧ ((p &&& 0x001F) ||| ((p >>> 1) &&& 0x7FE0)) < 2 ^ 16 := by
  have hlt := rgb555_value_lt p
  unfold rgb555_value at hlt
  refine ⟨?_, by omega⟩
  rw [tx_getElem ndebug h src w 15 i p (by decide) hi hl hp]
  have e : ((p &&& 0x001F) ||| ((p >>> 1) &&& 0x7FE0)) / 256 % 256
      = ((p &&& 0x001F) ||| ((p >>> 1) &&& 0x7FE0)) / 256 := by omega
  simp only [converted_bytes, rgb555_value, le16, e]
  rfl

/-- Witness of C5: the pixel 0xFFFF becomes 0x7FFF, bytes 0xFF, 0x7F. -/
theorem pixel_depth15_witness :
    (0 < 1 ∧ 1 ≤ [0xFFFF].length ∧ [0xFFFF][0]? = some 0xFFFF)
    ∧ ((send_bmp_data false (some ⟨0⟩) (some [0xFFFF]) 1 15).tx[0]?
        = some [((0xFFFF &&& 0x001F) ||| ((0xFFFF >>> 1) &&& 0x7FE0)) % 256,
                ((0xFFFF &&& 0x001F) ||| ((0xFFFF >>> 1) &&& 0x7FE0)) / 256]
      ∧ ((0xFFFF &&& 0x001F) ||| ((0xFFFF >>> 1) &&& 0x7FE0)) < 2 ^ 16) :=
  ⟨⟨by decide, by decide, by decide⟩,
    pixel_depth15 false ⟨0⟩ [0xFFFF] 1 0 0xFFFF (by decide) (by decide) (by decide)⟩

/-- The pixel named with C5, evaluated on the code: 0xFFFF gives the value
0x7FFF, sent as 0xFF, 0x7F (followed by two pad bytes). -/
theorem pixel_depth15_examples :
    (0xFFFF &&& 0x001F) ||| ((0xFFFF >>> 1) &&& 0x7FE0) = 0x7FFF
    ∧ (send_bmp_data false (some ⟨0⟩) (some [0xFFFF]) 1 15).tx = [[0xFF, 0x7F], [0, 0]] := by
  constructor <;> decide

/-- C6: at depth 16, for a row of width `w` over a source of at least `w`
pixels, the `i`-th block emitted (`i < w`) is the `i`-th source pixel `p`
itself (a 16-bit value) as its low byte followed by its high byte; the two
bytes read back as `p`. -/
theorem pixel_depth16 (ndebug : Bool) (h : UART_HandleTypeDef) (src : List Nat)
    (w i p : Nat) (hi : i < w) (hl : w ≤ src.length) (hp : src[i]? = some p)
    (h16 : p < 2 ^ 16) :
    (send_bmp_data ndebug (some h) (some src) w 16).tx[i]? = some [p % 256, p / 256]
    ∧ p % 256 < 256 ∧ p / 256 < 256
    ∧ rd16 [p % 256, p / 256] 0 = some p := by
  refine ⟨?_, by omega, by omega, ?_⟩
  · rw [tx_getElem ndebug h src w 16 i p (by decide) hi hl hp]
    have e : p / 256 % 256 = p / 256 := by omega
    simp only [converted_bytes, le16, e]
    rfl
  · simp only [rd16, List.drop]
    congr 1
    omega

/-- Witness of C6: the pixel 0x1234 as the third pixel of a row. -/
theorem pixel_depth16_witness :
    (2 < 3 ∧ 3 ≤ [0xF800, 0x07E0, 0x1234].length
      ∧ [0xF800, 0x07E0, 0x1234][2]? = some 0x1234 ∧ 0x1234 < 2 ^ 16)
    ∧ ((send_bmp_data false (some ⟨0⟩) (some [0xF800, 0x07E0, 0x1234]) 3 16).tx[2]?
        = some [0x1234 % 256, 0x1234 / 256]
      ∧ 0x1234 % 256 < 256 ∧ 0x1234 / 256 < 256
      ∧ rd16 [0x1234 % 256, 0x1234 / 256] 0 = some 0x1234) :=
  ⟨⟨by decide, by decide, by decide, by decide⟩,
    pixel_depth16 false ⟨0⟩ [0xF800, 0x07E0, 0x1234] 3 2 0x1234
      (by decide) (by decide) (by decide) (by decide)⟩

/-- The pixel named with C6, evaluated on the code: 0x1234 is sent as
0x34, 0x12. -/
theorem pixel_depth16_examples :
    (send_bmp_data false (some ⟨0⟩) (some [0xF800, 0x07E0, 0x1234]) 3 16).tx
      = [[0x00, 0xF8], [0xE0, 0x07], [0x34, 0x12], [0, 0]] := by
  decide

/-- C7: for every width and height, `send_bmp_handle` at depth 16 emits the
54-byte header block and immediately after it one block of 16 bytes, the
little-endian u32 encodings of 0xF800, 0x07E0, 0x001F and 0 in this order,
70 bytes in total; at depth 15 or 24 it emits the 54-byte header block and
nothing after it. -/
theorem mask_block_layout (ndebug : Bool) (h : UART_HandleTypeDef)
    (width height bpp : Nat) (hb : bpp = 15 ∨ bpp = 16 ∨ bpp = 24) :
    ∃ head, head.length = 54
      ∧ (bpp = 16 →
          (send_bmp_handle ndebug h width height bpp).tx
            = [head, le32 0xF800 ++ le32 0x07E0 ++ le32 0x001F ++ le32 0x00000000]
          ∧ le32 0xF800 ++ le32 0x07E0 ++ le32 0x001F ++ le32 0x00000000
            = [0x00, 0xF8, 0, 0, 0xE0, 0x07, 0, 0, 0x1F, 0, 0, 0, 0, 0, 0, 0]
          ∧ (send_bmp_handle ndebug h width height bpp).stream.length = 70)
      ∧ (bpp ≠ 16 →
          (send_bmp_handle ndebug h width height bpp).tx = [head]
          ∧ (send_bmp_handle ndebug h width height bpp).stream.length = 54) := by
  have hlen := length_packed_header width height bpp
  refine ⟨packed_header width height bpp, hlen, ?_, ?_⟩
  · intro h16
    rw [send_bmp_handle_eq ndebug h width height bpp hb]
    refine ⟨by simp [h16, mask_block], rfl, ?_⟩
    simp [Result.stream, h16, length_packed_header, mask_block, length_le32]
  · intro h16
    rw [send_bmp_handle_eq ndebug h width height bpp hb]
    refine ⟨by simp [h16], ?_⟩
    simp [Result.stream, h16, length_packed_header]

/-- Witness of C7: a 3 x 2 image at depth 16. -/
theorem mask_block_layout_witness :
    (16 = 15 ∨ 16 = 16 ∨ 16 = 24)
    ∧ ∃ head, head.length = 54
      ∧ (16 = 16 →
          (send_bmp_handle true ⟨0⟩ 3 2 16).tx
            = [head, le32 0xF800 ++ le32 0x07E0 ++ le32 0x001F ++ le32 0x00000000]
          ∧ le32 0xF800 ++ le32 0x07E0 ++ le32 0x001F ++ le32 0x00000000
            = [0x00, 0xF8, 0, 0, 0xE0, 0x07, 0, 0, 0x1F, 0, 0, 0, 0, 0, 0, 0]
          ∧ (send_bmp_handle true ⟨0⟩ 3 2 16).stream.length = 70)
      ∧ (16 ≠ 16 →
          (send_bmp_handle true ⟨0⟩ 3 2 16).tx = [head]
          ∧ (send_bmp_handle true ⟨0⟩ 3 2 16).stream.length = 54) :=
  ⟨by decide, mask_block_layout true ⟨0⟩ 3 2 16 (by decide)⟩

/-- C3: for a depth in {15, 16, 24}, a width `w ≥ 1` and a height without
32-bit overflow (`bytesPerPixel * (w + 1) < 2^32` and
`70 + stride * height < 2^32`), the sizes read back from the emitted header
agree with the bytes emitted: bfOffBits (offset 10) is the number of bytes
`send_bmp_handle` emits (54, or 70 at depth 16), biSizeImage (offset 34) is
the number of bytes emitted by the `height` calls of `send_bmp_data` with
width `w`, and bfSize (offset 2) is the total of the two; every row has
`stride = (bytesPerPixel * (w + 1)) & ~3` bytes, which is
`bytesPerPixel * w` plus the modulo-based pad of `send_bmp_data`. -/
theorem declared_sizes_agree (ndebug : Bool) (h : UART_HandleTypeDef)
    (w height bpp : Nat) (rows : List (List Nat))
    (hb : bpp = 15 ∨ bpp = 16 ∨ bpp = 24) (hw : 1 ≤ w)
    (hov1 : bytesPerPixel bpp * (w + 1) < 2 ^ 32)
    (hov2 : 70 + stride_expr (bytesPerPixel bpp) w * height < 2 ^ 32)
    (hrows : rows.length = height) (hlen : ∀ r ∈ rows, w ≤ r.length) :
    (send_bmp_handle ndebug h w height bpp).stream.length = (if bpp = 16 then 70 else 54)
    ∧ rd32 (send_bmp_handle ndebug h w height bpp).stream 10
        = some (send_bmp_handle ndebug h w height bpp).stream.length
    ∧ rd32 (send_bmp_handle ndebug h w height bpp).stream 34
        = some (rows_stream ndebug h rows w bpp).length
    ∧ rd32 (send_bmp_handle ndebug h w height bpp).stream 2
        = some ((send_bmp_handle ndebug h w height bpp).stream.length
            + (rows_stream ndebug h rows w bpp).length)
    ∧ (∀ r ∈ rows, (send_bmp_data ndebug (some h) (some r) w bpp).stream.length
        = stride_expr (bytesPerPixel bpp) w)
    ∧ stride_expr (bytesPerPixel bpp) w
        = bytesPerPixel bpp * w + (4 - (bytesPerPixel bpp * w) % 4) % 4 := by
  have hceil := stride_expr_ceiling (bytesPerPixel bpp) w (bytesPerPixel_cases bpp) hov1
  have hrow : bytesPerPixel bpp * w + pad_row_size (bytesPerPixel bpp) w
      = stride_expr (bytesPerPixel bpp) w := by
    rw [pad_row_size_eq, hceil]
  have hbody : (rows_stream ndebug h rows w bpp).length
      = stride_expr (bytesPerPixel bpp) w * height := by
    rw [length_rows_stream ndebug h w bpp hb hw rows hlen, hrow, hrows, Nat.mul_comm]
  have hhead : (send_bmp_handle ndebug h w height bpp).stream.length
      = (if bpp = 16 then 70 else 54) := by
    rw [send_bmp_handle_stream ndebug h w height bpp hb, List.length_append,
      length_packed_header]
    by_cases h16 : bpp = 16 <;> simp [h16, mask_block, length_le32]
  have hoff : (if bpp = 16 then 70 else 54) ≤ 70 := by split <;> omega
  refine ⟨hhead, ?_, ?_, ?_, ?_, hceil⟩
  · rw [hhead, send_bmp_handle_stream ndebug h w height bpp hb, rd32_header_10]
  · rw [hbody, send_bmp_handle_stream ndebug h w height bpp hb, rd32_header_34,
      u32_of_lt (by omega)]
  · rw [hbody, hhead, send_bmp_handle_stream ndebug h w height bpp hb, rd32_header_2,
      u32_of_lt (by omega)]
  · intro r hr
    rw [send_bmp_data_stream_length ndebug h r w bpp hb hw (hlen r hr), hrow]

/-- Witness of C3: a 5 x 2 image at depth 15. -/
theorem declared_sizes_agree_witness :
    ((15 = 15 ∨ 15 = 16 ∨ 15 = 24) ∧ 1 ≤ 5
      ∧ bytesPerPixel 15 * (5 + 1) < 2 ^ 32
      ∧ 70 + stride_expr (bytesPerPixel 15) 5 * 2 < 2 ^ 32
      ∧ [[1, 2, 3, 4, 5], [6, 7, 8, 9, 10]].length = 2
      ∧ ∀ r ∈ [[1, 2, 3, 4, 5], [6, 7, 8, 9, 10]], 5 ≤ r.length)
    ∧ ((send_bmp_handle false ⟨0⟩ 5 2 15).stream.length = (if 15 = 16 then 70 else 54)
      ∧ rd32 (send_bmp_handle false ⟨0⟩ 5 2 15).stream 10
          = some (send_bmp_handle false ⟨0⟩ 5 2 15).stream.length
      ∧ rd32 (send_bmp_handle false ⟨0⟩ 5 2 15).stream 34
          = some (rows_stream false ⟨0⟩ [[1, 2, 3, 4, 5], [6, 7, 8, 9, 10]] 5 15).length
      ∧ rd32 (send_bmp_handle false ⟨0⟩ 5 2 15).stream 2
          = some ((send_bmp_handle false ⟨0⟩ 5 2 15).stream.length
              + (rows_stream false ⟨0⟩ [[1, 2, 3, 4, 5], [6, 7, 8, 9, 10]] 5 15).length)
      ∧ (∀ r ∈ [[1, 2, 3, 4, 5], [6, 7, 8, 9, 10]],
          (send_bmp_data false (some ⟨0⟩) (some r) 5 15).stream.length
            = stride_expr (bytesPerPixel 15) 5)
      ∧ stride_expr (bytesPerPixel 15) 5
          = bytesPerPixel 15 * 5 + (4 - (bytesPerPixel 15 * 5) % 4) % 4) :=
  ⟨⟨by decide, by decide, by decide, by decide, by decide, by decide⟩,
    declared_sizes_agree false ⟨0⟩ 5 2 15 [[1, 2, 3, 4, 5], [6, 7, 8, 9, 10]]
      (by decide) (by decide) (by decide) (by decide) (by decide) (by decide)⟩

/-- C8 fails as stated: at the width 0xFFFFFFFF and depth 24 the sum
`width + 1` wraps to 0, so `bytes_per_row` is 0 and is below
`3 * width`; at the width 715827882 the product `3 * (width + 1)` is
2^31 + 1, so the `int32_t` variable `bytes_per_row` is negative. -/
theorem stride_lower_bound_fails :
    (1 ≤ 4294967295 ∧ 4294967295 < 2 ^ 32)
    ∧ bytes_per_row 4294967295 24 = some 0
    ∧ ¬ ((0 : Int) ≥ ((bytesPerPixel 24 * 4294967295 : Nat) : Int))
    ∧ (1 ≤ 715827882 ∧ 715827882 < 2 ^ 32)
    ∧ bytes_per_row 715827882 24 = some (-2147483648)
    ∧ ¬ ((-2147483648 : Int) ≥ ((bytesPerPixel 24 * 715827882 : Nat) : Int)) := by
  refine ⟨by decide, by decide, by decide, by decide, by decide, by decide⟩

/-- C8, amended: for every width of the 32-bit unsigned type and a depth in
{15, 16, 24}, the stride `bytes_per_row` computed by `send_bmp_handle`
is a multiple of 4, and it is at least `bytesPerPixel * width` exactly when
`bytesPerPixel * (width + 1) < 2^31`, that is, when the rounded product fits
the signed 32-bit variable. -/
theorem stride_multiple_and_bound (w bpp : Nat) (hb : bpp = 15 ∨ bpp = 16 ∨ bpp = 24)
    (hw : w < 2 ^ 32) :
    ∃ s : Int, bytes_per_row w bpp = some s
      ∧ s % 4 = 0
      ∧ (s ≥ ((bytesPerPixel bpp * w : Nat) : Int) ↔ bytesPerPixel bpp * (w + 1) < 2 ^ 31) := by
  refine ⟨to_int32 (stride_expr (bytesPerPixel bpp) w), bytes_per_row_valid w bpp hb, ?_, ?_⟩
  · rw [stride_expr_eq]
    unfold to_int32 u32
    split <;> omega
  · exact to_int32_stride_ge _ w (bytesPerPixel_cases bpp) hw

/-- Witness of C8, amended: width 5 at depth 24 has the stride 16. -/
theorem stride_multiple_and_bound_witness :
    ((24 = 15 ∨ 24 = 16 ∨ 24 = 24) ∧ 5 < 2 ^ 32)
    ∧ ∃ s : Int, bytes_per_row 5 24 = some s
      ∧ s % 4 = 0
      ∧ (s ≥ ((bytesPerPixel 24 * 5 : Nat) : Int) ↔ bytesPerPixel 24 * (5 + 1) < 2 ^ 31) :=
  ⟨⟨by decide, by decide⟩, stride_multiple_and_bound 5 24 (by decide) (by decide)⟩

/-- C9: for a depth in {15, 16, 24} and a width with
`bytesPerPixel * (width + 1) < 2^32`, the value of the bit trick
`(bytesPerPixel * (width + 1)) & ~3`, which `send_bmp_handle` stores in
`bytes_per_row` and takes back as unsigned for the sizes, equals
`bytesPerPixel * width` rounded up to the next multiple of 4, that is
`bytesPerPixel * width + ((4 - (bytesPerPixel * width) mod 4) mod 4)`, and
this is also the value of the two commented-out formulas. -/
theorem stride_expr_is_ceiling (w bpp : Nat) (hb : bpp = 15 ∨ bpp = 16 ∨ bpp = 24)
    (hov : bytesPerPixel bpp * (w + 1) < 2 ^ 32) :
    stride_expr (bytesPerPixel bpp) w
        = bytesPerPixel bpp * w + (4 - (bytesPerPixel bpp * w) % 4) % 4
    ∧ stride_expr (bytesPerPixel bpp) w = ceil_to_multiple_of_4 (bytesPerPixel bpp * w)
    ∧ naive_stride_1 (bytesPerPixel bpp) w = ceil_to_multiple_of_4 (bytesPerPixel bpp * w)
    ∧ naive_stride_2 (bytesPerPixel bpp) w = ceil_to_multiple_of_4 (bytesPerPixel bpp * w)
    ∧ bytes_per_row w bpp = some (to_int32 (stride_expr (bytesPerPixel bpp) w))
    ∧ to_uint32 (to_int32 (stride_expr (bytesPerPixel bpp) w))
        = stride_expr (bytesPerPixel bpp) w := by
  have hceil := stride_expr_ceiling (bytesPerPixel bpp) w (bytesPerPixel_cases bpp) hov
  refine ⟨hceil, hceil, ?_, ?_, bytes_per_row_valid w bpp hb, to_uint32_stride _ _⟩
  · unfold naive_stride_1 ceil_to_multiple_of_4
    rcases bytesPerPixel_cases bpp with hk | hk <;> rw [hk] <;> omega
  · unfold naive_stride_2 ceil_to_multiple_of_4
    generalize bytesPerPixel bpp * w = m
    simp only []
    split <;> omega

/-- Witness of C9: width 5 at depth 24, where 3 * 6 = 18 is cut to 16, the
ceiling of 15. -/
theorem stride_expr_is_ceiling_witness :
    ((24 = 15 ∨ 24 = 16 ∨ 24 = 24) ∧ bytesPerPixel 24 * (5 + 1) < 2 ^ 32)
    ∧ (stride_expr (bytesPerPixel 24) 5
          = bytesPerPixel 24 * 5 + (4 - (bytesPerPixel 24 * 5) % 4) % 4
      ∧ stride_expr (bytesPerPixel 24) 5 = ceil_to_multiple_of_4 (bytesPerPixel 24 * 5)
      ∧ naive_stride_1 (bytesPerPixel 24) 5 = ceil_to_multiple_of_4 (bytesPerPixel 24 * 5)
      ∧ naive_stride_2 (bytesPerPixel 24) 5 = ceil_to_multiple_of_4 (bytesPerPixel 24 * 5)
      ∧ bytes_per_row 5 24 = some (to_int32 (stride_expr (bytesPerPixel 24) 5))
      ∧ to_uint32 (to_int32 (stride_expr (bytesPerPixel 24) 5))
          = stride_expr (bytesPerPixel 24) 5) :=
  ⟨⟨by decide, by decide⟩, stride_expr_is_ceiling 5 24 (by decide) (by decide)⟩

/-- C10 fails as stated: for depth 15 the bits-per-pixel field read back at
offset 28 is 16, not the depth 15 that was passed in. -/
theorem header_roundtrip_depth15_fails :
    rd16 (send_bmp_handle false ⟨0⟩ 1 1 15).stream 28 = some 16
    ∧ rd16 (send_bmp_handle false ⟨0⟩ 1 1 15).stream 28 ≠ some 15 := by
  constructor <;> decide

/-- C10, amended: for every width and height of the 32-bit unsigned type and
a depth in {15, 16, 24}, reading the bytes emitted by `send_bmp_handle` as a
BMP header gives the signature 0x4D42 at offset 0, the same width at offset
18, the same height at offset 22, and at offset 28 a bits-per-pixel field
equal to the depth passed in for the depths 16 and 24 and equal to 16 for the
depth 15. -/
theorem header_roundtrip (ndebug : Bool) (h : UART_HandleTypeDef) (width height bpp : Nat)
    (hb : bpp = 15 ∨ bpp = 16 ∨ bpp = 24) (hw : width < 2 ^ 32) (hh : height < 2 ^ 32) :
    rd16 (send_bmp_handle ndebug h width height bpp).stream 0 = some 0x4D42
    ∧ rd32 (send_bmp_handle ndebug h width height bpp).stream 18 = some width
    ∧ rd32 (send_bmp_handle ndebug h width height bpp).stream 22 = some height
    ∧ rd16 (send_bmp_handle ndebug h width height bpp).stream 28
        = some (if bpp = 15 then 16 else bpp) := by
  rw [send_bmp_handle_stream ndebug h width height bpp hb]
  refine ⟨rd16_header_0 _ _ _ _, rd32_header_18 _ _ _ _ hw, rd32_header_22 _ _ _ _ hh, ?_⟩
  rw [rd16_header_28]
  rcases hb with rfl | rfl | rfl <;> rfl

/-- Witness of C10, amended: a 320 x 240 image at depth 15. -/
theorem header_roundtrip_witness :
    ((15 = 15 ∨ 15 = 16 ∨ 15 = 24) ∧ 320 < 2 ^ 32 ∧ 240 < 2 ^ 32)
    ∧ (rd16 (send_bmp_handle false ⟨0⟩ 320 240 15).stream 0 = some 0x4D42
      ∧ rd32 (send_bmp_handle false ⟨0⟩ 320 240 15).stream 18 = some 320
      ∧ rd32 (send_bmp_handle false ⟨0⟩ 320 240 15).stream 22 = some 240
      ∧ rd16 (send_bmp_handle false ⟨0⟩ 320 240 15).stream 28
          = some (if 15 = 15 then 16 else 15)) :=
  ⟨⟨by decide, by decide, by decide⟩,
    header_roundtrip false ⟨0⟩ 320 240 15 (by decide) (by decide) (by decide)⟩

/-! ## Masks and shifts as arithmetic -/

theorem and_shifted_mask (x k n : Nat) :
    x &&& (2 ^ k * (2 ^ n - 1)) = 2 ^ k * (x / 2 ^ k % 2 ^ n) := by
  apply Nat.eq_of_testBit_eq
  intro i
  rw [Nat.testBit_and, Nat.testBit_mul_pow_two, Nat.testBit_mul_pow_two,
    Nat.testBit_two_pow_sub_one, Nat.testBit_mod_two_pow, ← Nat.shiftRight_eq_div_pow,
    Nat.testBit_shiftRight]
  by_cases h : i ≥ k
  · have e : k + (i - k) = i := by omega
    simp only [h, e, decide_True, Bool.true_and]
    exact Bool.and_comm _ _
  · simp [h]

theorem and_0x001F (p : Nat) : p &&& 0x001F = p % 32 :=
  Nat.and_pow_two_sub_one_eq_mod p 5

theorem and_0x7FE0 (x : Nat) : x &&& 0x7FE0 = 32 * (x / 32 % 1024) :=
  and_shifted_mask x 5 10

theorem and_0x07E0 (p : Nat) : p &&& 0x07E0 = 32 * (p / 32 % 64) :=
  and_shifted_mask p 5 6

theorem and_0xF800 (p : Nat) : p &&& 0xF800 = 2048 * (p / 2048 % 32) :=
  and_shifted_mask p 11 5

theorem or_low (a b : Nat) (k : Nat) (hb : b < 2 ^ k) : 2 ^ k * a ||| b = 2 ^ k * a + b :=
  (Nat.mul_add_lt_is_or hb a).symm

theorem rgb555_value_arith (p : Nat) : rgb555_value p = 32 * (p / 64 % 1024) + p % 32 := by
  unfold rgb555_value
  rw [and_0x001F, and_0x7FE0, Nat.shiftRight_eq_div_pow, Nat.or_comm]
  have e : p / 2 ^ 1 / 32 = p / 64 := by omega
  rw [e]
  exact or_low (p / 64 % 1024) (p % 32) 5 (by omega)

theorem blue_arith (p : Nat) : (p &&& 0x001F) <<< 3 = 8 * (p % 32) := by
  rw [and_0x001F, Nat.shiftLeft_eq]; omega

theorem green_arith (p : Nat) : (p &&& 0x07E0) >>> 3 = 4 * (p / 32 % 64) := by
  rw [and_0x07E0, Nat.shiftRight_eq_div_pow]; omega

theorem red_arith (p : Nat) : (p &&& 0xF800) >>> 8 = 8 * (p / 2048 % 32) := by
  rw [and_0xF800, Nat.shiftRight_eq_div_pow]; omega

theorem and_7 (x : Nat) : x &&& 0x07 = x % 8 := Nat.and_pow_two_sub_one_eq_mod x 3

theorem and_3 (x : Nat) : x &&& 0x03 = x % 4 := Nat.and_pow_two_sub_one_eq_mod x 2

theorem and_0x3F (x : Nat) : x &&& 0x3F = x % 64 := Nat.and_pow_two_sub_one_eq_mod x 6

/-- Putting the three channel fields back together. -/
theorem pack_565 (r g b : Nat) (hg : g < 64) (hb : b < 32) :
    (r <<< 11) ||| (g <<< 5) ||| b = 2048 * r + 32 * g + b := by
  rw [Nat.shiftLeft_eq, Nat.shiftLeft_eq, Nat.mul_comm r, Nat.mul_comm g,
    or_low r (2 ^ 5 * g) 11 (by omega)]
  have e : 2 ^ 11 * r + 2 ^ 5 * g = 2 ^ 5 * (64 * r + g) := by omega
  rw [e, or_low _ b 5 (by omega)]
  omega

/-! ## Calls that emit nothing -/

theorem c_assert_invalid (bpp : Nat) (hb : bpp ≠ 15 ∧ bpp ≠ 16 ∧ bpp ≠ 24) :
    c_assert false (bpp == 24 || bpp == 16 || bpp == 15) = false := by
  obtain ⟨h15, h16, h24⟩ := hb
  simp [c_assert, h15, h16, h24]

theorem c_assert_valid (ndebug : Bool) (bpp : Nat) (hb : bpp = 15 ∨ bpp = 16 ∨ bpp = 24) :
    c_assert ndebug (bpp == 24 || bpp == 16 || bpp == 15) = true := by
  rcases hb with rfl | rfl | rfl <;> simp [c_assert]

theorem send_bmp_handle_invalid (huart : UART_HandleTypeDef) (width height bpp : Nat)
    (hb : bpp ≠ 15 ∧ bpp ≠ 16 ∧ bpp ≠ 24) :
    send_bmp_handle false huart width height bpp = ⟨[], Status.assert_failed⟩ := by
  unfold send_bmp_handle
  rw [if_pos (c_assert_invalid bpp hb)]

theorem send_bmp_data_invalid (huart : Option UART_HandleTypeDef)
    (p_data : Option (List Nat)) (width bpp : Nat) (hb : bpp ≠ 15 ∧ bpp ≠ 16 ∧ bpp ≠ 24) :
    send_bmp_data false huart p_data width bpp = ⟨[], Status.assert_failed⟩ := by
  unfold send_bmp_data
  rw [if_pos (c_assert_invalid bpp hb)]

theorem send_bmp_handle_invalid_tx (ndebug : Bool) (huart : UART_HandleTypeDef)
    (width height bpp : Nat) (hb : bpp ≠ 15 ∧ bpp ≠ 16 ∧ bpp ≠ 24) :
    (send_bmp_handle ndebug huart width height bpp).tx = [] := by
  obtain ⟨h15, h16, h24⟩ := hb
  unfold send_bmp_handle
  split
  · rfl
  · simp [bytes_per_row, h15, h16, h24]

theorem send_bmp_data_invalid_tx (ndebug : Bool) (huart : Option UART_HandleTypeDef)
    (p_data : Option (List Nat)) (width bpp : Nat) (hb : bpp ≠ 15 ∧ bpp ≠ 16 ∧ bpp ≠ 24) :
    (send_bmp_data ndebug huart p_data width bpp).tx = [] := by
  obtain ⟨h15, h16, h24⟩ := hb
  unfold send_bmp_data
  split
  · rfl
  · split
    · split
      · rfl
      · simp [row_setup, h15, h16, h24]
    · rfl

theorem send_bmp_data_noop (ndebug : Bool) (huart : Option UART_HandleTypeDef)
    (p_data : Option (List Nat)) (width bpp : Nat) (hb : bpp = 15 ∨ bpp = 16 ∨ bpp = 24)
    (h0 : p_data = none ∨ width = 0) :
    send_bmp_data ndebug huart p_data width bpp = ⟨[], Status.returned⟩ := by
  unfold send_bmp_data
  rw [c_assert_valid ndebug bpp hb]
  rcases h0 with rfl | rfl
  · simp
  · cases p_data <;> cases huart <;> simp

/-- With `NDEBUG` the depth check is compiled out: an unsupported depth then
leaves both functions through `default: return`, silently and without a
byte. -/
theorem invalid_depth_ndebug (huart : UART_HandleTypeDef) (width height bpp : Nat)
    (hb : bpp ≠ 15 ∧ bpp ≠ 16 ∧ bpp ≠ 24) :
    send_bmp_handle true huart width height bpp = ⟨[], Status.returned⟩
    ∧ send_bmp_data true (some huart) (some [0]) 1 bpp = ⟨[], Status.returned⟩ := by
  obtain ⟨h15, h16, h24⟩ := hb
  constructor
  · simp [send_bmp_handle, c_assert, bytes_per_row, h15, h16, h24]
  · simp [send_bmp_data, c_assert, row_setup, h15, h16, h24]

/-- C11: for every depth other than 15, 16 and 24, and for every width,
height, handle and pixel source (absent ones included), `send_bmp_handle`
and `send_bmp_data` both stop at the depth assertion, the invalid-depth
failure of the code, and emit no bytes at all; no bytes are emitted either
when the assertion is compiled out. -/
theorem invalid_depth_rejected (huart : UART_HandleTypeDef)
    (huart_row : Option UART_HandleTypeDef) (p_data : Option (List Nat))
    (width height bpp : Nat) (hb : bpp ≠ 15 ∧ bpp ≠ 16 ∧ bpp ≠ 24) :
    send_bmp_handle false huart width height bpp = ⟨[], Status.assert_failed⟩
    ∧ send_bmp_data false huart_row p_data width bpp = ⟨[], Status.assert_failed⟩
    ∧ (∀ ndebug : Bool,
        (send_bmp_handle ndebug huart width height bpp).stream = []
        ∧ (send_bmp_data ndebug huart_row p_data width bpp).stream = []) := by
  refine ⟨send_bmp_handle_invalid huart width height bpp hb,
    send_bmp_data_invalid huart_row p_data width bpp hb, ?_⟩
  intro ndebug
  unfold Result.stream
  rw [send_bmp_handle_invalid_tx ndebug huart width height bpp hb,
    send_bmp_data_invalid_tx ndebug huart_row p_data width bpp hb]
  exact ⟨rfl, rfl⟩

/-- Witness of C11: the depth 8 with a 4 x 3 image and a row of four pixels. -/
theorem invalid_depth_rejected_witness :
    (8 ≠ 15 ∧ 8 ≠ 16 ∧ 8 ≠ 24)
    ∧ (send_bmp_handle false ⟨0⟩ 4 3 8 = ⟨[], Status.assert_failed⟩
      ∧ send_bmp_data false (some ⟨0⟩) (some [1, 2, 3, 4]) 4 8 = ⟨[], Status.assert_failed⟩
      ∧ (∀ ndebug : Bool,
          (send_bmp_handle ndebug ⟨0⟩ 4 3 8).stream = []
          ∧ (send_bmp_data ndebug (some ⟨0⟩) (some [1, 2, 3, 4]) 4 8).stream = [])) :=
  ⟨by decide, invalid_depth_rejected ⟨0⟩ (some ⟨0⟩) (some [1, 2, 3, 4]) 4 3 8 (by decide)⟩

/-- C12 fails as stated: with the unsupported depth 8 a call with an absent
pixel source, and a call with the width 0, stop at the depth assertion
instead of returning as a no-op success. -/
theorem noop_unsupported_depth_fails :
    send_bmp_data false (some ⟨0⟩) none 5 8 = ⟨[], Status.assert_failed⟩
    ∧ (send_bmp_data false (some ⟨0⟩) none 5 8).status ≠ Status.returned
    ∧ send_bmp_data false (some ⟨0⟩) (some [1, 2]) 0 8 = ⟨[], Status.assert_failed⟩
    ∧ (send_bmp_data false (some ⟨0⟩) (some [1, 2]) 0 8).status ≠ Status.returned := by
  refine ⟨by decide, by decide, by decide, by decide⟩

/-- C12, amended: when `send_bmp_data` is called with a depth in
{15, 16, 24} and with the width 0 or an absent pixel source, it is a no-op
success: it writes no bytes (no pixel bytes and no padding bytes) and
returns normally. -/
theorem noop_zero_width_or_null (ndebug : Bool) (huart : Option UART_HandleTypeDef)
    (p_data : Option (List Nat)) (width bpp : Nat) (hb : bpp = 15 ∨ bpp = 16 ∨ bpp = 24)
    (h0 : p_data = none ∨ width = 0) :
    send_bmp_data ndebug huart p_data width bpp = ⟨[], Status.returned⟩
    ∧ (send_bmp_data ndebug huart p_data width bpp).stream = [] := by
  rw [send_bmp_data_noop ndebug huart p_data width bpp hb h0]
  exact ⟨rfl, rfl⟩

/-- Witness of C12, amended: the width 0 over a non-empty source at depth 24. -/
theorem noop_zero_width_or_null_witness :
    ((24 = 15 ∨ 24 = 16 ∨ 24 = 24) ∧ ((some [1, 2] : Option (List Nat)) = none ∨ 0 = 0))
    ∧ (send_bmp_data false (some ⟨0⟩) (some [1, 2]) 0 24 = ⟨[], Status.returned⟩
      ∧ (send_bmp_data false (some ⟨0⟩) (some [1, 2]) 0 24).stream = []) :=
  ⟨⟨by decide, Or.inr rfl⟩,
    noop_zero_width_or_null false (some ⟨0⟩) (some [1, 2]) 0 24 (by decide) (Or.inr rfl)⟩

/-- C13 fails as stated: with the width 5, the depth 24 and an absent pixel
source the call returns normally, with no failure of any kind. -/
theorem null_source_error_fails :
    send_bmp_data false (some ⟨0⟩) none 5 24 = ⟨[], Status.returned⟩
    ∧ (send_bmp_data false (some ⟨0⟩) none 5 24).status ≠ Status.assert_failed
    ∧ (send_bmp_data false (some ⟨0⟩) none 5 24).status ≠ Status.out_of_bounds := by
  refine ⟨by decide, by decide, by decide⟩

/-- C13, amended: when `send_bmp_data` is called with a width above 0 and a
depth in {15, 16, 24} but the pixel source is absent, it returns normally
without writing a byte; the code has no invalid-argument failure. -/
theorem null_source_returns (ndebug : Bool) (huart : Option UART_HandleTypeDef)
    (width bpp : Nat) (hb : bpp = 15 ∨ bpp = 16 ∨ bpp = 24) (_hw : 0 < width) :
    (send_bmp_data ndebug huart none width bpp).status = Status.returned
    ∧ (send_bmp_data ndebug huart none width bpp).tx = [] := by
  rw [send_bmp_data_noop ndebug huart none width bpp hb (Or.inl rfl)]
  exact ⟨rfl, rfl⟩

/-- Witness of C13, amended: the width 5 at depth 16 with an absent source. -/
theorem null_source_returns_witness :
    ((16 = 15 ∨ 16 = 16 ∨ 16 = 24) ∧ 0 < 5)
    ∧ ((send_bmp_data false (some ⟨0⟩) none 5 16).status = Status.returned
      ∧ (send_bmp_data false (some ⟨0⟩) none 5 16).tx = []) :=
  ⟨⟨by decide, by decide⟩, null_source_returns false (some ⟨0⟩) 5 16 (by decide) (by decide)⟩

/-- C17: in `send_bmp_data` the depth assertion comes before the test for an
absent source or a zero width: for every depth outside {15, 16, 24}, a call
with the width 0 or with an absent pixel source stops at the assertion and
does not return as a no-op success. -/
theorem depth_check_before_noop (huart : Option UART_HandleTypeDef)
    (p_data : Option (List Nat)) (width bpp : Nat) (hb : bpp ≠ 15 ∧ bpp ≠ 16 ∧ bpp ≠ 24)
    (_h0 : p_data = none ∨ width = 0) :
    send_bmp_data false huart p_data width bpp = ⟨[], Status.assert_failed⟩
    ∧ (send_bmp_data false huart p_data width bpp).status ≠ Status.returned := by
  rw [send_bmp_data_invalid huart p_data width bpp hb]
  exact ⟨rfl, by decide⟩

/-- Witness of C17: the depth 8 with the width 0. -/
theorem depth_check_before_noop_witness :
    ((8 ≠ 15 ∧ 8 ≠ 16 ∧ 8 ≠ 24) ∧ ((some [7] : Option (List Nat)) = none ∨ 0 = 0))
    ∧ (send_bmp_data false (some ⟨0⟩) (some [7]) 0 8 = ⟨[], Status.assert_failed⟩
      ∧ (send_bmp_data false (some ⟨0⟩) (some [7]) 0 8).status ≠ Status.returned) :=
  ⟨⟨by decide, Or.inr rfl⟩,
    depth_check_before_noop (some ⟨0⟩) (some [7]) 0 8 (by decide) (Or.inr rfl)⟩

theorem shift_field_10 (a b : Nat) (hb : b < 32) : (32 * a + b) / 2 ^ 10 = a / 32 := by
  have h1 : (32 * a + b) / 32 = a := by omega
  have h2 : (32 * a + b) / 2 ^ 10 = (32 * a + b) / 32 / 32 := by
    rw [Nat.div_div_eq_div_mul]; rfl
  rw [h2, h1]

theorem shift_field_5 (a b : Nat) (hb : b < 32) : (32 * a + b) / 2 ^ 5 = a := by
  omega

theorem rgb555_red (p : Nat) (h16 : p < 2 ^ 16) :
    (32 * (p / 64 % 1024) + p % 32) / 2 ^ 10 % 32 = p / 2 ^ 11 := by
  have ha : p / 64 % 1024 = p / 64 := by omega
  rw [ha, shift_field_10 _ _ (by omega)]
  omega

theorem rgb555_green (p : Nat) (h16 : p < 2 ^ 16) :
    (32 * (p / 64 % 1024) + p % 32) / 2 ^ 5 % 32 = p / 2 ^ 5 % 64 / 2 ^ 1 := by
  have ha : p / 64 % 1024 = p / 64 := by omega
  rw [ha, shift_field_5 _ _ (by omega)]
  omega

/-- C14: at depth 15 the two bytes emitted for a source pixel `p` are the
low and high byte of `q = (p & 0x001F) | ((p >> 1) & 0x7FE0)`, and `q` has
bit 15 clear (`q < 0x8000`), its red field (bits 14-10) is the red field of
`p` (bits 15-11), its green field (bits 9-5) is the 6-bit green field of `p`
(bits 10-5) without its lowest bit, and its blue field (bits 4-0) is the
blue field of `p` (bits 4-0). -/
theorem depth15_fields (ndebug : Bool) (h : UART_HandleTypeDef) (src : List Nat)
    (w i p : Nat) (hi : i < w) (hl : w ≤ src.length) (hp : src[i]? = some p)
    (h16 : p < 2 ^ 16) :
    ∃ q, q = (p &&& 0x001F) ||| ((p >>> 1) &&& 0x7FE0)
      ∧ (send_bmp_data ndebug (some h) (some src) w 15).tx[i]? = some [q % 256, q / 256]
      ∧ q < 0x8000
      ∧ (q >>> 10) &&& 0x1F = p >>> 11
      ∧ (q >>> 5) &&& 0x1F = ((p >>> 5) &&& 0x3F) >>> 1
      ∧ q &&& 0x1F = p &&& 0x1F := by
  have hq := rgb555_value_arith p
  have hlt := rgb555_value_lt p
  refine ⟨rgb555_value p, rfl, ?_, by omega, ?_, ?_, ?_⟩
  · rw [tx_getElem ndebug h src w 15 i p (by decide) hi hl hp]
    have e : rgb555_value p / 256 % 256 = rgb555_value p / 256 := by omega
    simp only [converted_bytes, le16, e]
    rfl
  · rw [and_0x001F, Nat.shiftRight_eq_div_pow, Nat.shiftRight_eq_div_pow, hq]
    exact rgb555_red p h16
  · rw [and_0x001F, and_0x3F, Nat.shiftRight_eq_div_pow, Nat.shiftRight_eq_div_pow,
      Nat.shiftRight_eq_div_pow, hq]
    exact rgb555_green p h16
  · rw [and_0x001F, and_0x001F, hq]
    omega

/-- Witness of C14: the pixel 0xFFFF, whose result is 0x7FFF. -/
theorem depth15_fields_witness :
    (0 < 1 ∧ 1 ≤ [0xFFFF].length ∧ [0xFFFF][0]? = some 0xFFFF ∧ 0xFFFF < 2 ^ 16)
    ∧ ∃ q, q = (0xFFFF &&& 0x001F) ||| ((0xFFFF >>> 1) &&& 0x7FE0)
      ∧ (send_bmp_data false (some ⟨0⟩) (some [0xFFFF]) 1 15).tx[0]?
          = some [q % 256, q / 256]
      ∧ q < 0x8000
      ∧ (q >>> 10) &&& 0x1F = 0xFFFF >>> 11
      ∧ (q >>> 5) &&& 0x1F = ((0xFFFF >>> 5) &&& 0x3F) >>> 1
      ∧ q &&& 0x1F = 0xFFFF &&& 0x1F :=
  ⟨⟨by decide, by decide, by decide, by decide⟩,
    depth15_fields false ⟨0⟩ [0xFFFF] 1 0 0xFFFF (by decide) (by decide) (by decide)
      (by decide)⟩

/-- The depth-15 repacking of a pixel whose green field has its lowest bit
set, evaluated on the code: 0x0020 (green = 1) gives 0x0000 and 0x0040
(green = 2) gives 0x0020. -/
theorem depth15_fields_examples :
    (send_bmp_data false (some ⟨0⟩) (some [0x0020, 0x0040]) 2 15).tx
      = [[0x00, 0x00], [0x20, 0x00]] := by
  decide

theorem bgr_recover (p : Nat) (h16 : p < 2 ^ 16) :
    ((((p &&& 0xF800) >>> 8) >>> 3) <<< 11) ||| ((((p &&& 0x07E0) >>> 3) >>> 2) <<< 5)
      ||| (((p &&& 0x001F) <<< 3) >>> 3) = p := by
  rw [blue_arith, green_arith, red_arith, Nat.shiftRight_eq_div_pow,
    Nat.shiftRight_eq_div_pow, Nat.shiftRight_eq_div_pow]
  have er : 8 * (p / 2048 % 32) / 2 ^ 3 = p / 2048 % 32 := by omega
  have eg : 4 * (p / 32 % 64) / 2 ^ 2 = p / 32 % 64 := by omega
  have eb : 8 * (p % 32) / 2 ^ 3 = p % 32 := by omega
  rw [er, eg, eb, pack_565 _ _ _ (by omega) (by omega)]
  omega

theorem bgr_bytes_injective (p p2 : Nat) (h16 : p < 2 ^ 16) (h16b : p2 < 2 ^ 16)
    (e : bgr_bytes p2 = bgr_bytes p) : p2 = p := by
  unfold bgr_bytes at e
  simp only [List.cons.injEq, and_true] at e
  obtain ⟨eb, eg, er⟩ := e
  rw [← bgr_recover p h16, ← bgr_recover p2 h16b, eb, eg, er]

/-- C15: the depth-24 conversion loses nothing. For a 16-bit source pixel
`p` the block emitted is `[b, g, r]` where the low 3 bits of `b`, the low 2
bits of `g` and the low 3 bits of `r` are zero, and
`((r >> 3) << 11) | ((g >> 2) << 5) | (b >> 3) = p`; any 16-bit pixel that
is emitted as the same three bytes is `p` itself; and no channel reaches
0xFF (blue and red are at most 0xF8, green at most 0xFC). -/
theorem depth24_lossless (ndebug : Bool) (h : UART_HandleTypeDef) (src : List Nat)
    (w i p : Nat) (hi : i < w) (hl : w ≤ src.length) (hp : src[i]? = some p)
    (h16 : p < 2 ^ 16) :
    ∃ b g r,
      (send_bmp_data ndebug (some h) (some src) w 24).tx[i]? = some [b, g, r]
      ∧ b &&& 0x07 = 0 ∧ g &&& 0x03 = 0 ∧ r &&& 0x07 = 0
      ∧ ((r >>> 3) <<< 11) ||| ((g >>> 2) <<< 5) ||| (b >>> 3) = p
      ∧ b ≤ 0xF8 ∧ g ≤ 0xFC ∧ r ≤ 0xF8
      ∧ (∀ (src2 : List Nat) (w2 i2 p2 : Nat), i2 < w2 → w2 ≤ src2.length →
          src2[i2]? = some p2 → p2 < 2 ^ 16 →
          (send_bmp_data ndebug (some h) (some src2) w2 24).tx[i2]? = some [b, g, r] →
          p2 = p) := by
  refine ⟨(p &&& 0x001F) <<< 3, (p &&& 0x07E0) >>> 3, (p &&& 0xF800) >>> 8, ?_, ?_, ?_, ?_,
    bgr_recover p h16, ?_, ?_, ?_, ?_⟩
  · rw [tx_getElem ndebug h src w 24 i p (by decide) hi hl hp]
    rfl
  · rw [and_7, blue_arith]; omega
  · rw [and_3, green_arith]; omega
  · rw [and_7, red_arith]; omega
  · rw [blue_arith]; omega
  · rw [green_arith]; omega
  · rw [red_arith]; omega
  · intro src2 w2 i2 p2 hi2 hl2 hp2 h16b e
    rw [tx_getElem ndebug h src2 w2 24 i2 p2 (by decide) hi2 hl2 hp2] at e
    have e2 : converted_bytes 24 p2 = bgr_bytes p := Option.some.inj e
    exact bgr_bytes_injective p p2 h16 h16b e2

/-- Witness of C15: white 0xFFFF as the only pixel of a row. -/
theorem depth24_lossless_witness :
    (0 < 1 ∧ 1 ≤ [0xFFFF].length ∧ [0xFFFF][0]? = some 0xFFFF ∧ 0xFFFF < 2 ^ 16)
    ∧ ∃ b g r,
      (send_bmp_data false (some ⟨0⟩) (some [0xFFFF]) 1 24).tx[0]? = some [b, g, r]
      ∧ b &&& 0x07 = 0 ∧ g &&& 0x03 = 0 ∧ r &&& 0x07 = 0
      ∧ ((r >>> 3) <<< 11) ||| ((g >>> 2) <<< 5) ||| (b >>> 3) = 0xFFFF
      ∧ b ≤ 0xF8 ∧ g ≤ 0xFC ∧ r ≤ 0xF8
      ∧ (∀ (src2 : List Nat) (w2 i2 p2 : Nat), i2 < w2 → w2 ≤ src2.length →
          src2[i2]? = some p2 → p2 < 2 ^ 16 →
          (send_bmp_data false (some ⟨0⟩) (some src2) w2 24).tx[i2]? = some [b, g, r] →
          p2 = 0xFFFF) :=
  ⟨⟨by decide, by decide, by decide, by decide⟩,
    depth24_lossless false ⟨0⟩ [0xFFFF] 1 0 0xFFFF (by decide) (by decide) (by decide)
      (by decide)⟩

/-- The pixel named with C15, evaluated on the code: white 0xFFFF gives
(0xF8, 0xFC, 0xF8), followed by one pad byte. -/
theorem depth24_lossless_examples :
    (send_bmp_data false (some ⟨0⟩) (some [0xFFFF]) 1 24).tx
      = [[0xF8, 0xFC, 0xF8], [0x00]] := by
  decide

/-- C16: for a row of width `w ≥ 1`, the zero bytes `send_bmp_data` emits
after the pixel bytes number `pad_row_size`, which at depths 15 and 16 is 0
for an even `w` and 2 for an odd `w`, and at depth 24 is `w mod 4`, every
value 0, 1, 2, 3 occurring for some width; it is never above 3, the size of
`pad_byte`. -/
theorem pad_count (ndebug : Bool) (h : UART_HandleTypeDef) (src : List Nat)
    (w bpp : Nat) (hb : bpp = 15 ∨ bpp = 16 ∨ bpp = 24) (hw : 1 ≤ w) (hl : w ≤ src.length) :
    (send_bmp_data ndebug (some h) (some src) w bpp).stream
        = ((src.take w).map (converted_bytes bpp)).flatten
            ++ List.replicate (pad_row_size (bytesPerPixel bpp) w) 0
    ∧ ((src.take w).map (converted_bytes bpp)).flatten.length = bytesPerPixel bpp * w
    ∧ ((bpp = 15 ∨ bpp = 16) →
        pad_row_size (bytesPerPixel bpp) w = if w % 2 = 0 then 0 else 2)
    ∧ (bpp = 24 → pad_row_size (bytesPerPixel bpp) w = w % 4)
    ∧ (∀ k, k < 4 → ∃ w2, 1 ≤ w2 ∧ pad_row_size (bytesPerPixel 24) w2 = k)
    ∧ pad_row_size (bytesPerPixel bpp) w ≤ 3
    ∧ pad_row_size (bytesPerPixel bpp) w ≤ pad_byte.length := by
  refine ⟨send_bmp_data_stream ndebug h src w bpp hb hw hl, ?_, ?_, ?_, ?_,
    pad_row_size_le _ _, pad_row_size_le _ _⟩
  · rw [length_flatten_const _ _ (length_converted_bytes bpp), List.length_take,
      Nat.min_eq_left hl]
  · intro h2
    have hk : bytesPerPixel bpp = 2 := by
      rcases h2 with rfl | rfl <;> rfl
    rw [hk, pad_row_size_eq]
    split <;> omega
  · intro h24
    have hk : bytesPerPixel bpp = 3 := by rw [h24]; rfl
    rw [hk, pad_row_size_eq]
    omega
  · intro k hk
    interval_cases k
    · exact ⟨4, by decide, by decide⟩
    · exact ⟨1, by decide, by decide⟩
    · exact ⟨2, by decide, by decide⟩
    · exact ⟨3, by decide, by decide⟩

/-- Witness of C16: three pixels at depth 24, with 3 pad bytes. -/
theorem pad_count_witness :
    ((24 = 15 ∨ 24 = 16 ∨ 24 = 24) ∧ 1 ≤ 3 ∧ 3 ≤ [1, 2, 3].length)
    ∧ ((send_bmp_data false (some ⟨0⟩) (some [1, 2, 3]) 3 24).stream
          = (([1, 2, 3].take 3).map (converted_bytes 24)).flatten
              ++ List.replicate (pad_row_size (bytesPerPixel 24) 3) 0
      ∧ (([1, 2, 3].take 3).map (converted_bytes 24)).flatten.length = bytesPerPixel 24 * 3
      ∧ ((24 = 15 ∨ 24 = 16) →
          pad_row_size (bytesPerPixel 24) 3 = if 3 % 2 = 0 then 0 else 2)
      ∧ (24 = 24 → pad_row_size (bytesPerPixel 24) 3 = 3 % 4)
      ∧ (∀ k, k < 4 → ∃ w2, 1 ≤ w2 ∧ pad_row_size (bytesPerPixel 24) w2 = k)
      ∧ pad_row_size (bytesPerPixel 24) 3 ≤ 3
      ∧ pad_row_size (bytesPerPixel 24) 3 ≤ pad_byte.length) :=
  ⟨⟨by decide, by decide, by decide⟩,
    pad_count false ⟨0⟩ [1, 2, 3] 3 24 (by decide) (by decide) (by decide)⟩

/-- The pad blocks of rows of widths 1 to 4, evaluated on the code (all
pixels zero): 1, 2, 3 and no pad bytes at depth 24; 2, none, 2 and none at
depths 15 and 16. -/
theorem pad_count_examples :
    (send_bmp_data false (some ⟨0⟩) (some [0, 0, 0, 0]) 1 24).tx = [[0, 0, 0], [0]]
    ∧ (send_bmp_data false (some ⟨0⟩) (some [0, 0, 0, 0]) 2 24).tx
        = [[0, 0, 0], [0, 0, 0], [0, 0]]
    ∧ (send_bmp_data false (some ⟨0⟩) (some [0, 0, 0, 0]) 3 24).tx
        = [[0, 0, 0], [0, 0, 0], [0, 0, 0], [0, 0, 0]]
    ∧ (send_bmp_data false (some ⟨0⟩) (some [0, 0, 0, 0]) 4 24).tx
        = [[0, 0, 0], [0, 0, 0], [0, 0, 0], [0, 0, 0]]
    ∧ (send_bmp_data false (some ⟨0⟩) (some [0, 0, 0, 0]) 1 15).tx = [[0, 0], [0, 0]]
    ∧ (send_bmp_data false (some ⟨0⟩) (some [0, 0, 0, 0]) 2 15).tx = [[0, 0], [0, 0]]
    ∧ (send_bmp_data false (some ⟨0⟩) (some [0, 0, 0, 0]) 3 16).tx
        = [[0, 0], [0, 0], [0, 0], [0, 0]]
    ∧ (send_bmp_data false (some ⟨0⟩) (some [0, 0, 0, 0]) 4 16).tx
        = [[0, 0], [0, 0], [0, 0], [0, 0]] := by
  refine ⟨?_, ?_, ?_, ?_, ?_, ?_, ?_, ?_⟩ <;> decide

end BMP
